import Mathlib

/-!
# Verification of `deq_tools` (DEQ air-quality client) against its specification

Shallow embedding of `src/deq_tools/__init__.py`.  JSON payloads (as produced
by `json.loads`, so object keys are unique) are modelled by the `Json`
inductive type; pydantic model construction becomes an `Option`-returning
parse function per model; `datetime` values are modelled by the `DT` record
of calendar/clock fields.  Numeric JSON literals are split the way Python's
`json` module splits them: integer literals to `Json.int`, decimal literals
to `Json.num` (modelled exactly as rationals; no claim depends on binary
floating-point rounding).
-/

namespace DeqTools

/-- A parsed JSON value, as produced by Python's `json.loads`.
Object key lists are unique by construction (Python dicts). -/
inductive Json where
  | null
  | bool (b : Bool)
  | int (n : Int)
  | num (q : Rat)
  | str (s : String)
  | arr (elems : List Json)
  | obj (fields : List (String × Json))

/-- A naive (timezone-free) `datetime.datetime` value: the Python object is
just these six fields (microseconds are always 0 in this code base). -/
structure DT where
  year : Nat
  month : Nat
  day : Nat
  hour : Nat
  minute : Nat
  second : Nat
deriving DecidableEq, Repr

/-- Numeric value of a digit character. -/
def chVal (c : Char) : Nat := c.toNat - 48

/-- Value of a digit string (most significant first), as `int()` computes it. -/
def lval (l : List Char) : Nat := l.foldl (fun a c => 10 * a + chVal c) 0

/-- ASCII whitespace, modelling the `\s` class used by CPython `strptime`
for the blanks of the format string (upstream data only ever contains
`' '`; non-ASCII whitespace is out of scope of the model). -/
def isSpaceChar (c : Char) : Bool :=
  c = ' ' || c = '\t' || c = '\n' || c = '\r' || c = '\x0b' || c = '\x0c'

/-- Split off the maximal leading digit run (regex greediness of `\d`-classes). -/
def takeDigits : List Char → List Char × List Char
  | [] => ([], [])
  | c :: cs =>
    if c.isDigit then
      let p := takeDigits cs
      (c :: p.1, p.2)
    else ([], c :: cs)

/-- Split off the maximal leading whitespace run (`\s+` greediness). -/
def takeSpaces : List Char → List Char × List Char
  | [] => ([], [])
  | c :: cs =>
    if isSpaceChar c then
      let p := takeSpaces cs
      (c :: p.1, p.2)
    else ([], c :: cs)

/-- Consume one numeric field of `strptime`: a digit run whose length lies in
`[minl, maxl]` and whose value lies in `[lo, hi]`.  This is exactly the
acceptance of the CPython `TimeRE` character classes for `%m`/`%d`/`%Y`/
`%I`/`%M`/`%S` followed by a mandatory non-digit (each field of the format
at hand is delimited by `/`, `:` or whitespace, so regex backtracking never
accepts less than the maximal digit run). -/
def parseNumField (cs : List Char) (minl maxl lo hi : Nat) : Option (Nat × List Char) :=
  if minl ≤ (takeDigits cs).1.length ∧ (takeDigits cs).1.length ≤ maxl ∧
      lo ≤ lval (takeDigits cs).1 ∧ lval (takeDigits cs).1 ≤ hi then
    some (lval (takeDigits cs).1, (takeDigits cs).2)
  else none

/-- Consume the `%d` field: the CPython day regex is
`3[0-1]|[1-2]\d|0[1-9]|[1-9]| [1-9]` — a 1–2 digit run valued 1–31, or a
single blank followed by one nonzero digit. -/
def parseDayField (cs : List Char) : Option (Nat × List Char) :=
  match cs with
  | ' ' :: c :: rest =>
    if c.isDigit ∧ c ≠ '0' then some (chVal c, rest) else none
  | _ => parseNumField cs 1 2 1 31

/-- Consume one literal character of the format string. -/
def expectChar (c : Char) : List Char → Option (List Char)
  | [] => none
  | x :: xs => if x = c then some xs else none

/-- Consume `\s+`: at least one whitespace character. -/
def expectSpaces (cs : List Char) : Option (List Char) :=
  if (takeSpaces cs).1 = [] then none else some (takeSpaces cs).2

/-- Consume `%p` (locale `AM`/`PM`, matched case-insensitively);
returns `true` for PM. -/
def parseAmPm : List Char → Option (Bool × List Char)
  | a :: m :: rest =>
    if (a = 'A' ∨ a = 'a') ∧ (m = 'M' ∨ m = 'm') then some (false, rest)
    else if (a = 'P' ∨ a = 'p') ∧ (m = 'M' ∨ m = 'm') then some (true, rest)
    else none
  | _ => none

def isLeap (y : Nat) : Bool := y % 4 = 0 && (y % 100 ≠ 0 || y % 400 = 0)

/-- Length of a month, as validated by the `datetime.datetime` constructor. -/
def daysInMonth (y m : Nat) : Nat :=
  if m = 2 then (if isLeap y then 29 else 28)
  else if m = 4 ∨ m = 6 ∨ m = 9 ∨ m = 11 then 30
  else 31

/-- Convert a 12-hour clock hour plus AM/PM flag to a 24-hour clock hour,
as `_strptime` does for `%I` + `%p`. -/
def to24Hour (h : Nat) (pm : Bool) : Nat :=
  if pm then (if h = 12 then 12 else h + 12) else (if h = 12 then 0 else h)

/-- `Monitor.interpret_date`: `datetime.strptime(value, "%m/%d/%Y %I:%M:%S %p")`,
returning `none` where Python raises.  Field acceptance follows CPython's
`_strptime` regex table: `%m`,`%I` are 1–2 digit runs restricted to their
value ranges, `%d` additionally admits a blank-padded single digit,
`%Y` is exactly 4 digits, `%M`,`%S` are 1–2 digit runs up to 59
(`%S` also matches 60/61 in the regex, but the `datetime` constructor then
rejects those seconds, so the composite behaviour is a 0–59 bound), the
format blanks match `\s+`, and the whole string must be consumed.  The
`datetime` constructor additionally validates `year ≥ 1` and the day against
the month length. -/
def interpret_date (s : String) : Option DT := do
  let cs := s.data
  let (mo, r1) ← parseNumField cs 1 2 1 12
  let r2 ← expectChar '/' r1
  let (d, r3) ← parseDayField r2
  let r4 ← expectChar '/' r3
  let (y, r5) ← parseNumField r4 4 4 1 9999
  let r6 ← expectSpaces r5
  let (h, r7) ← parseNumField r6 1 2 1 12
  let r8 ← expectChar ':' r7
  let (mi, r9) ← parseNumField r8 1 2 0 59
  let r10 ← expectChar ':' r9
  let (sec, r11) ← parseNumField r10 1 2 0 59
  let r12 ← expectSpaces r11
  let (pm, r13) ← parseAmPm r12
  if r13 = [] ∧ d ≤ daysInMonth y mo then
    some ⟨y, mo, d, to24Hour h pm, mi, sec⟩
  else none

/-- Zero-pad a number to two digits (`%M`-style rendering). -/
def pad2 (n : Nat) : String :=
  if n < 10 then "0" ++ toString n else toString n

/-- Zero-pad a number to four digits (`%Y`-style rendering). -/
def pad4 (n : Nat) : String :=
  if n < 10 then "000" ++ toString n
  else if n < 100 then "00" ++ toString n
  else if n < 1000 then "0" ++ toString n
  else toString n

/-- `datetime.isoformat()` / `strftime("%Y-%m-%dT%H:%M:%S")` for a
microsecond-free datetime; also the JSON rendering pydantic uses when
serializing a `datetime` field. -/
def isoFormat (d : DT) : String :=
  pad4 d.year ++ "-" ++ pad2 d.month ++ "-" ++ pad2 d.day ++ "T" ++
    pad2 d.hour ++ ":" ++ pad2 d.minute ++ ":" ++ pad2 d.second

/-! ## pydantic value coercion

One helper per field kind. Each returns `none` where pydantic model
construction raises, and `some v` with the coerced value otherwise.
Lax-mode coercions not exercised by any upstream payload shape (e.g.
`"1"`/`"true"` for booleans, numeric strings for floats) are noted where
they are left out of the model. -/

/-- `int(...)`-style string coercion pydantic applies to `int` fields in lax
mode: optional sign followed by one or more digits. -/
def strToInt (s : String) : Option Int :=
  match s.data with
  | [] => none
  | '-' :: ds => if ds ≠ [] ∧ ds.all Char.isDigit then some (-(lval ds : Int)) else none
  | '+' :: ds => if ds ≠ [] ∧ ds.all Char.isDigit then some ((lval ds : Int)) else none
  | ds => if ds.all Char.isDigit then some ((lval ds : Int)) else none

/-- Coerce one JSON value to `int` (non-optional position): accepts an
integer, an integral float, or a numeric string; everything else (including
`null` and booleans, which pydantic v2 rejects for `int`) fails. -/
def parseIntVal : Json → Option Int
  | .int n => some n
  | .num q => if q.den = 1 then some q.num else none
  | .str s => strToInt s
  | _ => none

/-- Coerce one JSON value in an `Optional[int]` position. -/
def parseOptInt : Json → Option (Option Int)
  | .null => some none
  | v => (parseIntVal v).map some

/-- Coerce one JSON value in an `Optional[str]` position (pydantic does not
coerce numbers to strings). -/
def parseOptStr : Json → Option (Option String)
  | .null => some none
  | .str s => some (some s)
  | _ => none

/-- Coerce one JSON value in an `Optional[bool]` position (upstream sends
real booleans or null; the lax string/int coercions are never exercised and
are left out of the model). -/
def parseOptBool : Json → Option (Option Bool)
  | .null => some none
  | .bool b => some (some b)
  | _ => none

/-- Coerce one JSON value in an `Optional[float]` position (JSON numbers;
ints are widened). -/
def parseOptNum : Json → Option (Option Rat)
  | .null => some none
  | .num q => some (some q)
  | .int n => some (some (n : Rat))
  | _ => none

/-- `Optional[List[int]]` position: an array of int-coercible values, or null. -/
def parseOptIntList : Json → Option (Option (List Int))
  | .null => some none
  | .arr xs => (xs.mapM parseIntVal).map some
  | _ => none

/-- Python-dict lookup in a parsed JSON object (keys are unique, see `Json`). -/
def jlookup : List (String × Json) → String → Option Json
  | [], _ => none
  | (k, v) :: rest, key => if k = key then some v else jlookup rest key

/-- One model field with alias `key`: absent means the `None` default,
present means coerce with `coe`. -/
def field (kvs : List (String × Json)) (key : String)
    (coe : Json → Option (Option α)) : Option (Option α) :=
  match jlookup kvs key with
  | none => some none
  | some v => coe v

/-- A `MON_StartDate`/`MON_EndDate` value: the `pre=True` validator runs on
any supplied value (including `null`) and calls `strptime`, which raises on
non-strings; so only a string parseable by `interpret_date` is accepted. -/
def parseDateVal : Json → Option (Option DT)
  | .str s => (interpret_date s).map some
  | _ => none

/-! ## Domain model -/

structure Location where
  latitude : Option Rat
  longitude : Option Rat
deriving DecidableEq, Repr

structure Monitor where
  channel_id : Option Int
  name : Option String
  «alias» : Option String
  description : Option String
  active : Option Bool
  type_id : Option Int
  pollutant_id : Option Int
  units : Option String
  unit_id : Option Int
  map_view : Option Bool
  is_index : Option Bool
  pollutant_category : Option Int
  numeric_format : Option String
  low_range : Option Int
  high_range : Option Int
  state : Option Int
  pct_valid : Option Int
  monitor_title : Option String
  mon_start_date : Option DT
  mon_end_date : Option DT
deriving DecidableEq, Repr

structure Station where
  station_id : Option Int
  stations_tag : Option String
  height : Option Int
  name : Option String
  short_name : Option String
  location : Option Location
  timebase : Option Int
  active : Option Bool
  owner : Option String
  owner_id : Option Int
  region_id : Option Int
  monitors : Option (List Monitor)
  station_target : Option String
  target_id : Option Int
  county : Option String
  city : Option String
  address : Option String
  time_bases : Option (List Int)
  additional_timebases : Option String
  is_non_continuous : Option String
  map_view : Option Bool
  aqi_view : Option Bool
  mobile : Option Bool
  aqscode : Option String
deriving DecidableEq, Repr

structure Region where
  region_id : Option Int
  name : Option String
  stations : List Station
deriving DecidableEq, Repr

structure Channel where
  value_date : Option Json
  status : Option Int
  value : Option Rat
  valid : Option Bool
  id : Option Int
  units : Option String
  name : Option String

structure StationDatum where
  datetime : Option DT
  channels : List Channel

structure MonitorData where
  data : List StationDatum

/-- `Location(**json)`. -/
def parseLocation (kvs : List (String × Json)) : Option Location :=
  match field kvs "latitude" parseOptNum with
  | none => none
  | some latitude =>
  match field kvs "longitude" parseOptNum with
  | none => none
  | some longitude => some ⟨latitude, longitude⟩

/-- `Optional[Location]` position. -/
def parseOptLocation : Json → Option (Option Location)
  | .null => some none
  | .obj kvs => (parseLocation kvs).map some
  | _ => none

/-- `Monitor(**json)`: every field optional and looked up by its alias; the
two date fields run `interpret_date` on any supplied value. -/
def parseMonitor : Json → Option Monitor
  | .obj kvs =>
    match field kvs "channelId" parseOptInt with
    | none => none
    | some channel_id =>
    match field kvs "name" parseOptStr with
    | none => none
    | some name =>
    match field kvs "alias" parseOptStr with
    | none => none
    | some alias_v =>
    match field kvs "description" parseOptStr with
    | none => none
    | some description =>
    match field kvs "active" parseOptBool with
    | none => none
    | some active =>
    match field kvs "typeId" parseOptInt with
    | none => none
    | some type_id =>
    match field kvs "pollutantId" parseOptInt with
    | none => none
    | some pollutant_id =>
    match field kvs "units" parseOptStr with
    | none => none
    | some units =>
    match field kvs "unitID" parseOptInt with
    | none => none
    | some unit_id =>
    match field kvs "mapView" parseOptBool with
    | none => none
    | some map_view =>
    match field kvs "isIndex" parseOptBool with
    | none => none
    | some is_index =>
    match field kvs "PollutantCategory" parseOptInt with
    | none => none
    | some pollutant_category =>
    match field kvs "NumericFormat" parseOptStr with
    | none => none
    | some numeric_format =>
    match field kvs "LowRange" parseOptInt with
    | none => none
    | some low_range =>
    match field kvs "HighRange" parseOptInt with
    | none => none
    | some high_range =>
    match field kvs "state" parseOptInt with
    | none => none
    | some state =>
    match field kvs "PctValid" parseOptInt with
    | none => none
    | some pct_valid =>
    match field kvs "MonitorTitle" parseOptStr with
    | none => none
    | some monitor_title =>
    match field kvs "MON_StartDate" parseDateVal with
    | none => none
    | some mon_start_date =>
    match field kvs "MON_EndDate" parseDateVal with
    | none => none
    | some mon_end_date =>
    some ⟨channel_id, name, alias_v, description, active, type_id, pollutant_id,
      units, unit_id, map_view, is_index, pollutant_category, numeric_format,
      low_range, high_range, state, pct_valid, monitor_title,
      mon_start_date, mon_end_date⟩
  | _ => none

/-- `Optional[List[Monitor]]` position. -/
def parseOptMonitors : Json → Option (Option (List Monitor))
  | .null => some none
  | .arr xs => (xs.mapM parseMonitor).map some
  | _ => none

/-- The `station_id: int = Field(None, alias="stationId")` field: the
`None` default is not validated, so an absent key yields an absent id, but
a supplied value (including `null`) must coerce to `int`. -/
def parseStationIdField (kvs : List (String × Json)) : Option (Option Int) :=
  match jlookup kvs "stationId" with
  | none => some none
  | some v => (parseIntVal v).map some

/-- `Station(**json)`. -/
def parseStation : Json → Option Station
  | .obj kvs =>
    match parseStationIdField kvs with
    | none => none
    | some station_id =>
    match field kvs "stationsTag" parseOptStr with
    | none => none
    | some stations_tag =>
    match field kvs "height" parseOptInt with
    | none => none
    | some height =>
    match field kvs "name" parseOptStr with
    | none => none
    | some name =>
    match field kvs "shortName" parseOptStr with
    | none => none
    | some short_name =>
    match field kvs "location" parseOptLocation with
    | none => none
    | some location =>
    match field kvs "timebase" parseOptInt with
    | none => none
    | some timebase =>
    match field kvs "active" parseOptBool with
    | none => none
    | some active =>
    match field kvs "owner" parseOptStr with
    | none => none
    | some owner =>
    match field kvs "ownerId" parseOptInt with
    | none => none
    | some owner_id =>
    match field kvs "regionId" parseOptInt with
    | none => none
    | some region_id =>
    match field kvs "monitors" parseOptMonitors with
    | none => none
    | some monitors =>
    match field kvs "StationTarget" parseOptStr with
    | none => none
    | some station_target =>
    match field kvs "TargetId" parseOptInt with
    | none => none
    | some target_id =>
    match field kvs "County" parseOptStr with
    | none => none
    | some county =>
    match field kvs "city" parseOptStr with
    | none => none
    | some city =>
    match field kvs "address" parseOptStr with
    | none => none
    | some address =>
    match field kvs "timeBases" parseOptIntList with
    | none => none
    | some time_bases =>
    match field kvs "additionalTimebases" parseOptStr with
    | none => none
    | some additional_timebases =>
    match field kvs "isNonContinuous" parseOptStr with
    | none => none
    | some is_non_continuous =>
    match field kvs "mapView" parseOptBool with
    | none => none
    | some map_view =>
    match field kvs "aqiView" parseOptBool with
    | none => none
    | some aqi_view =>
    match field kvs "mobile" parseOptBool with
    | none => none
    | some mobile =>
    match field kvs "AQSCODE" parseOptStr with
    | none => none
    | some aqscode =>
    some ⟨station_id, stations_tag, height, name, short_name, location,
      timebase, active, owner, owner_id, region_id, monitors, station_target,
      target_id, county, city, address, time_bases, additional_timebases,
      is_non_continuous, map_view, aqi_view, mobile, aqscode⟩
  | _ => none

/-- `Region(**json)`: `stations: List[Station]` is required (no default), so
a missing or null `stations` key fails construction; `regionId` and `name`
are optional. -/
def parseRegion : Json → Option Region
  | .obj kvs =>
    match field kvs "regionId" parseOptInt with
    | none => none
    | some region_id =>
    match field kvs "name" parseOptStr with
    | none => none
    | some name =>
    match jlookup kvs "stations" with
    | some (.arr xs) =>
      match xs.mapM parseStation with
      | none => none
      | some stations => some ⟨region_id, name, stations⟩
    | _ => none
  | _ => none

/-- The element-wise region parse `get_station_data` performs (`Region(**r)`
for each element of the response body, aborting on the first failure). -/
def parseRegions : List Json → Option (List Region)
  | [] => some []
  | j :: t =>
    match parseRegion j with
    | none => none
    | some r =>
      match parseRegions t with
      | none => none
      | some rs => some (r :: rs)

/-- A plain `Optional[datetime]` field (no custom validator): pydantic v2
parses ISO-8601 strings.  Modelled for the `YYYY-MM-DDTHH:MM:SS` form the
upstream data endpoint emits (fractional seconds / offsets are out of scope
of the model; no claim depends on which additional strings are accepted). -/
def parseIsoDate (s : String) : Option DT := do
  let cs := s.data
  let (y, r1) ← parseNumField cs 4 4 1 9999
  let r2 ← expectChar '-' r1
  let (mo, r3) ← parseNumField r2 2 2 1 12
  let r4 ← expectChar '-' r3
  let (d, r5) ← parseNumField r4 2 2 1 31
  let r6 ← expectChar 'T' r5
  let (h, r7) ← parseNumField r6 2 2 0 23
  let r8 ← expectChar ':' r7
  let (mi, r9) ← parseNumField r8 2 2 0 59
  let r10 ← expectChar ':' r9
  let (sec, r11) ← parseNumField r10 2 2 0 59
  if r11 = [] ∧ d ≤ daysInMonth y mo then
    some ⟨y, mo, d, h, mi, sec⟩
  else none

/-- `Optional[datetime]` position without a custom validator. -/
def parseOptIsoDate : Json → Option (Option DT)
  | .null => some none
  | .str s => (parseIsoDate s).map some
  | _ => none

/-- `Optional[Any]` position: `null` becomes the explicit `None`, any other
value is kept as-is. -/
def parseOptAny : Json → Option (Option Json)
  | .null => some none
  | v => some (some v)

/-- `Channel(**json)`. -/
def parseChannel : Json → Option Channel
  | .obj kvs =>
    match field kvs "value_date" parseOptAny with
    | none => none
    | some value_date =>
    match field kvs "status" parseOptInt with
    | none => none
    | some status =>
    match field kvs "value" parseOptNum with
    | none => none
    | some value =>
    match field kvs "valid" parseOptBool with
    | none => none
    | some valid =>
    match field kvs "id" parseOptInt with
    | none => none
    | some id =>
    match field kvs "units" parseOptStr with
    | none => none
    | some units =>
    match field kvs "name" parseOptStr with
    | none => none
    | some name =>
    some ⟨value_date, status, value, valid, id, units, name⟩
  | _ => none

/-- `StationDatum(**json)`: `channels: List[Channel] = []` has an
(unvalidated) empty-list default, so an absent key yields `[]` while a
supplied value must be an array of channels. -/
def parseStationDatum : Json → Option StationDatum
  | .obj kvs =>
    match field kvs "datetime" parseOptIsoDate with
    | none => none
    | some datetime =>
    match jlookup kvs "channels" with
    | none => some ⟨datetime, []⟩
    | some (.arr xs) =>
      match xs.mapM parseChannel with
      | none => none
      | some channels => some ⟨datetime, channels⟩
    | some _ => none
  | _ => none

/-- `MonitorData(**json)`: `data: List[StationDatum]` is required. -/
def parseMonitorData : Json → Option MonitorData
  | .obj kvs =>
    match jlookup kvs "data" with
    | some (.arr xs) => (xs.mapM parseStationDatum).map MonitorData.mk
    | _ => none
  | _ => none

/-! ## Serialization (`model_dump_json(by_alias=True)`)

pydantic serializes every field, in declaration order, under its alias;
`None` renders as `null`, `datetime` as its ISO format. -/

def serOptInt : Option Int → Json
  | none => .null
  | some n => .int n

def serOptStr : Option String → Json
  | none => .null
  | some s => .str s

def serOptBool : Option Bool → Json
  | none => .null
  | some b => .bool b

def serOptNum : Option Rat → Json
  | none => .null
  | some q => .num q

def serOptDate : Option DT → Json
  | none => .null
  | some d => .str (isoFormat d)

def serLocation (l : Location) : Json :=
  .obj [("latitude", serOptNum l.latitude), ("longitude", serOptNum l.longitude)]

def serOptLocation : Option Location → Json
  | none => .null
  | some l => serLocation l

def serMonitor (m : Monitor) : Json :=
  .obj [
    ("channelId", serOptInt m.channel_id),
    ("name", serOptStr m.name),
    ("alias", serOptStr m.«alias»),
    ("description", serOptStr m.description),
    ("active", serOptBool m.active),
    ("typeId", serOptInt m.type_id),
    ("pollutantId", serOptInt m.pollutant_id),
    ("units", serOptStr m.units),
    ("unitID", serOptInt m.unit_id),
    ("mapView", serOptBool m.map_view),
    ("isIndex", serOptBool m.is_index),
    ("PollutantCategory", serOptInt m.pollutant_category),
    ("NumericFormat", serOptStr m.numeric_format),
    ("LowRange", serOptInt m.low_range),
    ("HighRange", serOptInt m.high_range),
    ("state", serOptInt m.state),
    ("PctValid", serOptInt m.pct_valid),
    ("MonitorTitle", serOptStr m.monitor_title),
    ("MON_StartDate", serOptDate m.mon_start_date),
    ("MON_EndDate", serOptDate m.mon_end_date)]

def serOptMonitors : Option (List Monitor) → Json
  | none => .null
  | some ms => .arr (ms.map serMonitor)

def serOptIntList : Option (List Int) → Json
  | none => .null
  | some ns => .arr (ns.map Json.int)

def serStation (st : Station) : Json :=
  .obj [
    ("stationId", serOptInt st.station_id),
    ("stationsTag", serOptStr st.stations_tag),
    ("height", serOptInt st.height),
    ("name", serOptStr st.name),
    ("shortName", serOptStr st.short_name),
    ("location", serOptLocation st.location),
    ("timebase", serOptInt st.timebase),
    ("active", serOptBool st.active),
    ("owner", serOptStr st.owner),
    ("ownerId", serOptInt st.owner_id),
    ("regionId", serOptInt st.region_id),
    ("monitors", serOptMonitors st.monitors),
    ("StationTarget", serOptStr st.station_target),
    ("TargetId", serOptInt st.target_id),
    ("County", serOptStr st.county),
    ("city", serOptStr st.city),
    ("address", serOptStr st.address),
    ("timeBases", serOptIntList st.time_bases),
    ("additionalTimebases", serOptStr st.additional_timebases),
    ("isNonContinuous", serOptStr st.is_non_continuous),
    ("mapView", serOptBool st.map_view),
    ("aqiView", serOptBool st.aqi_view),
    ("mobile", serOptBool st.mobile),
    ("AQSCODE", serOptStr st.aqscode)]

def serRegion (r : Region) : Json :=
  .obj [
    ("regionId", serOptInt r.region_id),
    ("name", serOptStr r.name),
    ("stations", .arr (r.stations.map serStation))]

/-! ## The documented normalizations

`normRegionJson` rewrites an upstream region payload the way the documented
intentional normalizations do and nothing else: a numeric-string `height`
becomes the equal integer, and the two `MON_*Date` strings are reformatted
from `MM/DD/YYYY hh:mm:ss AM|PM` to ISO; every other key and value is kept
verbatim. -/

def normHeightVal : Json → Json
  | .str s =>
    match strToInt s with
    | some n => .int n
    | none => .str s
  | v => v

def normDateVal : Json → Json
  | .str s =>
    match interpret_date s with
    | some d => .str (isoFormat d)
    | none => .str s
  | v => v

def normMonitorJson : Json → Json
  | .obj kvs =>
    .obj (kvs.map fun p =>
      if p.1 = "MON_StartDate" ∨ p.1 = "MON_EndDate" then (p.1, normDateVal p.2) else p)
  | v => v

def normMonitorsVal : Json → Json
  | .arr xs => .arr (xs.map normMonitorJson)
  | v => v

def normStationJson : Json → Json
  | .obj kvs =>
    .obj (kvs.map fun p =>
      if p.1 = "height" then (p.1, normHeightVal p.2)
      else if p.1 = "monitors" then (p.1, normMonitorsVal p.2)
      else p)
  | v => v

def normRegionJson : Json → Json
  | .obj kvs =>
    .obj (kvs.map fun p =>
      if p.1 = "stations" then
        (p.1,
          match p.2 with
          | .arr xs => .arr (xs.map normStationJson)
          | v => v)
      else p)
  | v => v

/-! ## API operations -/

def STATION_URL : String := "https://aqiapi.oregon.gov/v1/envista/regions"
def DATA_URL : String := "https://aqiapi.oregon.gov/v1/envista/stations"

/-- Python truthiness of an `Optional[int]`. -/
def truthyInt : Option Int → Bool
  | none => false
  | some n => n ≠ 0

/-- Python truthiness of an `Optional[str]`. -/
def truthyStr : Option String → Bool
  | none => false
  | some s => s ≠ ""

/-- `get_station_data`, applied to the decoded response body (a list of
region JSON objects): construct each `Region` in order (any construction
failure aborts the whole call) and keep those with truthy `region_id` and
truthy `name`. -/
def get_station_data : List Json → Option (List Region)
  | [] => some []
  | j :: rest =>
    match parseRegion j with
    | none => none
    | some r =>
      match get_station_data rest with
      | none => none
      | some rs =>
        some (if truthyInt r.region_id && truthyStr r.name then r :: rs else rs)

/-- One `station_names[k] = v` dict write: overwrite in place if the key is
present, else append (Python dict insertion semantics). -/
def dictInsert (d : List (Int × String)) (k : Int) (v : String) : List (Int × String) :=
  if d.any (fun p => p.1 = k) then
    d.map (fun p => if p.1 = k then (k, v) else p)
  else d ++ [(k, v)]

/-- The dict write `get_station_names` performs per station. -/
def nameStep (d : List (Int × String)) (st : Station) : List (Int × String) :=
  match st.station_id, st.name with
  | some k, some v => dictInsert d k v
  | _, _ => d

/-- `get_station_names`, applied to the catalog `get_station_data` returned:
walk every station of every region in order and record its name under its id
when both are present. -/
def get_station_names (station_data : List Region) : List (Int × String) :=
  (station_data.flatMap Region.stations).foldl
    (fun d st =>
      match st.station_id, st.name with
      | some k, some v => dictInsert d k v
      | _, _ => d)
    []

/-- A literal query-parameter value of the `params` dict in `get_data`. -/
inductive PVal where
  | str (s : String)
  | int (n : Int)
  | bool (b : Bool)
deriving DecidableEq, Repr

/-- The URL `get_data` requests: `f"{DATA_URL}/{station_id}/{agg_method}"`. -/
def get_data_url (station_id : Int) (agg_method : String) : String :=
  DATA_URL ++ "/" ++ toString station_id ++ "/" ++ agg_method

/-- The `params` dict `get_data` builds, entry for entry. -/
def get_data_params (channels : Option (List Int)) (from_timestamp to_timestamp : DT)
    (resolution : Int) (percent_valid : Int) : List (String × PVal) :=
  [("filterChannels", .str
      (match channels with
       | some (c :: cs) => String.intercalate "," ((c :: cs).map toString)
       | _ => "")),
   ("from", .str (isoFormat from_timestamp)),
   ("to", .str (isoFormat to_timestamp)),
   ("fromTimebase", .int resolution),
   ("toTimebase", .int resolution),
   ("precentValid", .int percent_valid),
   ("timeBeginning", .bool false),
   ("useBackWard", .bool true),
   ("unitConversion", .bool false),
   ("includeSummary", .bool false),
   ("onlySummary", .bool false)]

/-- `get_data`: the request it issues (URL and query parameters) and the
parse of the response body into `MonitorData`. -/
def get_data (station_id : Int) (from_timestamp to_timestamp : DT)
    (channels : Option (List Int)) (resolution : Int) (agg_method : String)
    (percent_valid : Int) (body : Json) :
    (String × List (String × PVal)) × Option MonitorData :=
  ((get_data_url station_id agg_method,
    get_data_params channels from_timestamp to_timestamp resolution percent_valid),
   parseMonitorData body)

/-! ## Transport retry (`tenacity.retry(stop=stop_after_attempt(10),
wait=wait_fixed(10), reraise=True)`)

`f i` is the outcome of attempt `i` (0-based) of the wrapped HTTP call
(`requests.get/post` followed by `raise_for_status`).  `retryRun f i k`
performs attempt `i` with `k` retries still allowed and returns the final
outcome, the number of attempts made, and the list of inter-attempt delays
(seconds) slept. -/
def retryRun (f : Nat → Except E A) : Nat → Nat → Except E A × Nat × List Nat
  | i, 0 => (f i, 1, [])
  | i, k + 1 =>
    match f i with
    | .ok a => (.ok a, 1, [])
    | .error _ =>
      let p := retryRun f (i + 1) k
      (p.1, p.2.1 + 1, 10 :: p.2.2)

/-- The decorated `get`/`post`: up to 10 attempts, fixed 10-second waits,
re-raise the last underlying failure on exhaustion. -/
def retryCall (f : Nat → Except E A) : Except E A × Nat × List Nat :=
  retryRun f 0 9

/-- `get_station_data` including its transport call: fetch the catalog body
through the retrying `get`, then (on transport success) parse and filter.
Parsing happens strictly after the retry loop has finished. -/
def fetchStationCatalog (transport : Nat → Except E Json) :
    Except E (Option (List Region)) × Nat :=
  let p := retryCall transport
  match p.1 with
  | .error e => (.error e, p.2.1)
  | .ok body =>
    match body with
    | .arr js => (.ok (get_station_data js), p.2.1)
    | _ => (.ok none, p.2.1)

/-! ## The date format as a grammar

`matchesDateFormat s` states, independently of the parser, that `s` matches
the format `MM/DD/YYYY hh:mm:ss AM|PM` in the sense the source defines it —
the acceptance of `strptime` with format string `"%m/%d/%Y %I:%M:%S %p"`
(so zero-padding of the numeric fields is optional, the blanks match any
whitespace run, AM/PM is case-insensitive, and the calendar fields must
denote a real date). -/

def headDigit : List Char → Bool
  | [] => false
  | c :: _ => c.isDigit

def headSpace : List Char → Bool
  | [] => false
  | c :: _ => isSpaceChar c

/-- A digit run of bounded length whose value lies in `[lo, hi]`. -/
abbrev digitTok (l : List Char) (maxl lo hi : Nat) : Prop :=
  l ≠ [] ∧ l.all Char.isDigit = true ∧ l.length ≤ maxl ∧ lo ≤ lval l ∧ lval l ≤ hi

/-- The `%d` token: a 1–2 digit run valued 1–31, or a blank-padded single
nonzero digit. -/
abbrev dayTok (l : List Char) : Prop :=
  digitTok l 2 1 31 ∨ ∃ c, l = [' ', c] ∧ c.isDigit = true ∧ c ≠ '0'

/-- Day-of-month denoted by a `%d` token. -/
def dayValue : List Char → Nat
  | [' ', c] => chVal c
  | l => lval l

/-- The `%Y` token: exactly four digits, year at least 1 (the value bound
9999 is implied by the four digits). -/
abbrev yearTok (l : List Char) : Prop :=
  l.all Char.isDigit = true ∧ l.length = 4 ∧ 1 ≤ lval l ∧ lval l ≤ 9999

/-- A nonempty whitespace run (`\s+`). -/
abbrev spaceTok (l : List Char) : Prop :=
  l ≠ [] ∧ l.all isSpaceChar = true

/-- The case variants of the `%p` token. -/
def ampmForms : List (List Char) :=
  [['A','M'], ['A','m'], ['a','M'], ['a','m'],
   ['P','M'], ['P','m'], ['p','M'], ['p','m']]

/-- `s` matches `MM/DD/YYYY hh:mm:ss AM|PM`. -/
def matchesDateFormat (s : String) : Prop :=
  ∃ moT dT yT sp1 hT miT secT sp2 ap,
    s.data =
      moT ++ ('/' :: (dT ++ ('/' :: (yT ++ (sp1 ++ (hT ++ (':' :: (miT ++
        (':' :: (secT ++ (sp2 ++ ap)))))))))))
    ∧ digitTok moT 2 1 12
    ∧ dayTok dT
    ∧ yearTok yT
    ∧ spaceTok sp1
    ∧ digitTok hT 2 1 12
    ∧ digitTok miT 2 0 59
    ∧ digitTok secT 2 0 59
    ∧ spaceTok sp2
    ∧ ap ∈ ampmForms
    ∧ dayValue dT ≤ daysInMonth (lval yT) (lval moT)

/-! ## Shapes of upstream catalog payloads

`UpstreamRegionShape` describes a region object shaped like the upstream
catalog response: every model key present (in the upstream key order the
models were derived from), each value of its upstream type — `null` wherever
the field is nullable, dates as `MM/DD/YYYY hh:mm:ss AM|PM` strings, and
`height` as an integer or a numeric string. -/

def OptIntShape (v : Json) : Prop := v = .null ∨ ∃ n, v = .int n

def OptStrShape (v : Json) : Prop := v = .null ∨ ∃ s, v = .str s

def OptBoolShape (v : Json) : Prop := v = .null ∨ ∃ b, v = .bool b

def OptNumShape (v : Json) : Prop := v = .null ∨ ∃ q, v = .num q

/-- `height`: null, an integer, or the documented numeric string. -/
def HeightShape (v : Json) : Prop :=
  v = .null ∨ (∃ n, v = .int n) ∨ (∃ s n, v = .str s ∧ strToInt s = some n)

/-- A `MON_*Date` value: a string in the documented date format. -/
def DateShape (v : Json) : Prop :=
  ∃ s d, v = .str s ∧ interpret_date s = some d

def IntListShape (v : Json) : Prop :=
  v = .null ∨ ∃ ns : List Int, v = .arr (ns.map Json.int)

def LocationShape (v : Json) : Prop :=
  v = .null ∨ ∃ la lo, v = .obj [("latitude", la), ("longitude", lo)]
    ∧ OptNumShape la ∧ OptNumShape lo

def MonitorShape (j : Json) : Prop :=
  ∃ v1 v2 v3 v4 v5 v6 v7 v8 v9 v10 v11 v12 v13 v14 v15 v16 v17 v18 v19 v20,
    j = .obj [
      ("channelId", v1), ("name", v2), ("alias", v3), ("description", v4),
      ("active", v5), ("typeId", v6), ("pollutantId", v7), ("units", v8),
      ("unitID", v9), ("mapView", v10), ("isIndex", v11),
      ("PollutantCategory", v12), ("NumericFormat", v13), ("LowRange", v14),
      ("HighRange", v15), ("state", v16), ("PctValid", v17),
      ("MonitorTitle", v18), ("MON_StartDate", v19), ("MON_EndDate", v20)]
    ∧ OptIntShape v1 ∧ OptStrShape v2 ∧ OptStrShape v3 ∧ OptStrShape v4
    ∧ OptBoolShape v5 ∧ OptIntShape v6 ∧ OptIntShape v7 ∧ OptStrShape v8
    ∧ OptIntShape v9 ∧ OptBoolShape v10 ∧ OptBoolShape v11 ∧ OptIntShape v12
    ∧ OptStrShape v13 ∧ OptIntShape v14 ∧ OptIntShape v15 ∧ OptIntShape v16
    ∧ OptIntShape v17 ∧ OptStrShape v18 ∧ DateShape v19 ∧ DateShape v20

def MonitorsShape (v : Json) : Prop :=
  v = .null ∨ ∃ xs, v = .arr xs ∧ ∀ x ∈ xs, MonitorShape x

def StationShape (j : Json) : Prop :=
  ∃ v1 v2 v3 v4 v5 v6 v7 v8 v9 v10 v11 v12 v13 v14 v15 v16 v17 v18 v19 v20
    v21 v22 v23 v24,
    j = .obj [
      ("stationId", v1), ("stationsTag", v2), ("height", v3), ("name", v4),
      ("shortName", v5), ("location", v6), ("timebase", v7), ("active", v8),
      ("owner", v9), ("ownerId", v10), ("regionId", v11), ("monitors", v12),
      ("StationTarget", v13), ("TargetId", v14), ("County", v15),
      ("city", v16), ("address", v17), ("timeBases", v18),
      ("additionalTimebases", v19), ("isNonContinuous", v20),
      ("mapView", v21), ("aqiView", v22), ("mobile", v23), ("AQSCODE", v24)]
    ∧ (∃ n, v1 = .int n) ∧ OptStrShape v2 ∧ HeightShape v3 ∧ OptStrShape v4
    ∧ OptStrShape v5 ∧ LocationShape v6 ∧ OptIntShape v7 ∧ OptBoolShape v8
    ∧ OptStrShape v9 ∧ OptIntShape v10 ∧ OptIntShape v11 ∧ MonitorsShape v12
    ∧ OptStrShape v13 ∧ OptIntShape v14 ∧ OptStrShape v15 ∧ OptStrShape v16
    ∧ OptStrShape v17 ∧ IntListShape v18 ∧ OptStrShape v19 ∧ OptStrShape v20
    ∧ OptBoolShape v21 ∧ OptBoolShape v22 ∧ OptBoolShape v23 ∧ OptStrShape v24

def UpstreamRegionShape (j : Json) : Prop :=
  ∃ vR vN ss,
    j = .obj [("regionId", vR), ("name", vN), ("stations", .arr ss)]
    ∧ OptIntShape vR ∧ OptStrShape vN ∧ ∀ x ∈ ss, StationShape x

/-! ## Sample payloads (concrete test vectors for the theorems below) -/

def sampleMonitorJson : Json :=
  .obj [
    ("channelId", .int 3), ("name", .str "PM2.5 Est"), ("alias", .null),
    ("description", .null), ("active", .bool true), ("typeId", .int 28),
    ("pollutantId", .int 27), ("units", .str "ug/m3"), ("unitID", .int 14),
    ("mapView", .bool true), ("isIndex", .bool true),
    ("PollutantCategory", .null), ("NumericFormat", .str "0.0"),
    ("LowRange", .null), ("HighRange", .null), ("state", .int 0),
    ("PctValid", .null), ("MonitorTitle", .str "PM2.5 Est"),
    ("MON_StartDate", .str "06/01/1970 12:00:00 AM"),
    ("MON_EndDate", .str "12/31/9999 11:59:59 PM")]

def sampleStationJson : Json :=
  .obj [
    ("stationId", .int 2), ("stationsTag", .str "t"), ("height", .str "70"),
    ("name", .str "Portland SE Lafayette"), ("shortName", .str "Portland SE"),
    ("location", .obj [("latitude", .num (9087/200)), ("longitude", .null)]),
    ("timebase", .int 60), ("active", .bool true), ("owner", .null),
    ("ownerId", .int 0), ("regionId", .int 1), ("monitors", .arr [sampleMonitorJson]),
    ("StationTarget", .null), ("TargetId", .null), ("County", .str "Multnomah"),
    ("city", .null), ("address", .null), ("timeBases", .arr [.int 60, .int 1440]),
    ("additionalTimebases", .null), ("isNonContinuous", .str "false"),
    ("mapView", .bool true), ("aqiView", .bool true), ("mobile", .bool false),
    ("AQSCODE", .str "410510080")]

def sampleRegionJson : Json :=
  .obj [("regionId", .int 1), ("name", .str "Portland Metro"),
    ("stations", .arr [sampleStationJson])]

/-- A captured catalog body: five valid regions and two placeholder
(`regionId == 0`, empty-name) records, as the upstream API returns them. -/
def sampleCatalogJson : List Json :=
  [.obj [("regionId", .int 1), ("name", .str "Portland Metro"), ("stations", .arr [])],
   .obj [("regionId", .int 0), ("name", .str ""), ("stations", .arr [])],
   .obj [("regionId", .int 2), ("name", .str "Willamette Valley"), ("stations", .arr [])],
   .obj [("regionId", .int 3), ("name", .str "Southern Oregon"), ("stations", .arr [])],
   .obj [("regionId", .int 0), ("name", .str ""), ("stations", .arr [])],
   .obj [("regionId", .int 4), ("name", .str "Central Oregon"), ("stations", .arr [])],
   .obj [("regionId", .int 5), ("name", .str "Eastern Oregon"), ("stations", .arr [])]]

/-- A station record carrying only an id and a display name (all other
fields absent), as `get_station_names` consumes them. -/
def namedStation (i : Option Int) (nm : Option String) : Station :=
  ⟨i, none, none, nm, none, none, none, none, none, none, none, none,
   none, none, none, none, none, none, none, none, none, none, none, none⟩

/-- A two-region catalog in which station id 1 recurs across regions (the
later occurrence must win) and station 3 lacks a name (must be skipped). -/
def sampleNameRegions : List Region :=
  [⟨some 1, some "West", [namedStation (some 1) (some "Old Name"),
      namedStation (some 2) (some "Portland SE Lafayette")]⟩,
   ⟨some 2, some "East", [namedStation (some 1) (some "New Name"),
      namedStation (some 3) none,
      namedStation none (some "Anonymous")]⟩]

/-! # Proof support: the date scanner -/

theorem space_not_digit {c : Char} (h : isSpaceChar c = true) : c.isDigit = false := by
  simp only [isSpaceChar, Bool.or_eq_true, decide_eq_true_eq] at h
  rcases h with ((((rfl | rfl) | rfl) | rfl) | rfl) | rfl <;> rfl

theorem digit_not_space {c : Char} (h : c.isDigit = true) : isSpaceChar c = false := by
  cases hs : isSpaceChar c with
  | false => rfl
  | true => rw [space_not_digit hs] at h; cases h

theorem takeDigits_append {run rest : List Char} (h1 : run.all Char.isDigit = true)
    (h2 : headDigit rest = false) : takeDigits (run ++ rest) = (run, rest) := by
  induction run with
  | nil =>
    cases rest with
    | nil => rfl
    | cons c cs =>
      simp only [headDigit] at h2
      simp [takeDigits, h2]
  | cons c cs ih =>
    simp only [List.all_cons, Bool.and_eq_true] at h1
    simp [takeDigits, h1.1, ih h1.2]

theorem takeDigits_spec : ∀ cs : List Char,
    cs = (takeDigits cs).1 ++ (takeDigits cs).2 ∧
    (takeDigits cs).1.all Char.isDigit = true ∧
    headDigit (takeDigits cs).2 = false := by
  intro cs
  induction cs with
  | nil => exact ⟨rfl, rfl, rfl⟩
  | cons c cs ih =>
    by_cases hc : c.isDigit = true
    · simp only [takeDigits, hc, if_true]
      refine ⟨?_, ?_, ih.2.2⟩
      · rw [List.cons_append, ← ih.1]
      · simp only [List.all_cons, hc, Bool.true_and]
        exact ih.2.1
    · simp only [Bool.not_eq_true] at hc
      simp [takeDigits, hc, headDigit]

theorem takeSpaces_append {run rest : List Char} (h1 : run.all isSpaceChar = true)
    (h2 : headSpace rest = false) : takeSpaces (run ++ rest) = (run, rest) := by
  induction run with
  | nil =>
    cases rest with
    | nil => rfl
    | cons c cs =>
      simp only [headSpace] at h2
      simp [takeSpaces, h2]
  | cons c cs ih =>
    simp only [List.all_cons, Bool.and_eq_true] at h1
    simp [takeSpaces, h1.1, ih h1.2]

theorem takeSpaces_spec : ∀ cs : List Char,
    cs = (takeSpaces cs).1 ++ (takeSpaces cs).2 ∧
    (takeSpaces cs).1.all isSpaceChar = true ∧
    headSpace (takeSpaces cs).2 = false := by
  intro cs
  induction cs with
  | nil => exact ⟨rfl, rfl, rfl⟩
  | cons c cs ih =>
    by_cases hc : isSpaceChar c = true
    · simp only [takeSpaces, hc, if_true]
      refine ⟨?_, ?_, ih.2.2⟩
      · rw [List.cons_append, ← ih.1]
      · simp only [List.all_cons, hc, Bool.true_and]
        exact ih.2.1
    · simp only [Bool.not_eq_true] at hc
      simp [takeSpaces, hc, headSpace]

theorem parseNumField_append {run rest : List Char} {minl maxl lo hi : Nat}
    (hd : run.all Char.isDigit = true) (hrest : headDigit rest = false)
    (h3 : minl ≤ run.length) (h4 : run.length ≤ maxl)
    (h5 : lo ≤ lval run) (h6 : lval run ≤ hi) :
    parseNumField (run ++ rest) minl maxl lo hi = some (lval run, rest) := by
  unfold parseNumField
  rw [takeDigits_append hd hrest]
  exact if_pos ⟨h3, h4, h5, h6⟩

theorem parseNumField_inv {cs rest : List Char} {minl maxl lo hi v : Nat}
    (h : parseNumField cs minl maxl lo hi = some (v, rest)) :
    ∃ run, cs = run ++ rest ∧ run.all Char.isDigit = true ∧ headDigit rest = false ∧
      minl ≤ run.length ∧ run.length ≤ maxl ∧ v = lval run ∧ lo ≤ v ∧ v ≤ hi := by
  have hs := takeDigits_spec cs
  unfold parseNumField at h
  split at h
  · rename_i hcond
    rw [Option.some.injEq, Prod.mk.injEq] at h
    obtain ⟨hv, hrest⟩ := h
    refine ⟨(takeDigits cs).1, ?_, hs.2.1, ?_, hcond.1, hcond.2.1, ?_, ?_, ?_⟩
    · rw [← hrest]; exact hs.1
    · rw [← hrest]; exact hs.2.2
    · exact hv.symm
    · rw [← hv]; exact hcond.2.2.1
    · rw [← hv]; exact hcond.2.2.2
  · cases h

theorem expectChar_self (c : Char) (rest : List Char) :
    expectChar c (c :: rest) = some rest := by
  simp [expectChar]

theorem expectChar_inv {c : Char} {cs rest : List Char}
    (h : expectChar c cs = some rest) : cs = c :: rest := by
  cases cs with
  | nil => cases h
  | cons x xs =>
    by_cases hx : x = c
    · subst hx
      simp only [expectChar, if_true, Option.some.injEq] at h
      rw [h]
    · simp [expectChar, hx] at h

theorem expectSpaces_append {run rest : List Char} (h0 : run ≠ [])
    (h1 : run.all isSpaceChar = true) (h2 : headSpace rest = false) :
    expectSpaces (run ++ rest) = some rest := by
  unfold expectSpaces
  rw [takeSpaces_append h1 h2]
  exact if_neg h0

theorem expectSpaces_inv {cs rest : List Char} (h : expectSpaces cs = some rest) :
    ∃ run, cs = run ++ rest ∧ run ≠ [] ∧ run.all isSpaceChar = true ∧
      headSpace rest = false := by
  have hs := takeSpaces_spec cs
  unfold expectSpaces at h
  split at h
  · cases h
  · rename_i hne
    rw [Option.some.injEq] at h
    exact ⟨(takeSpaces cs).1, by rw [← h]; exact hs.1, hne, hs.2.1, by rw [← h]; exact hs.2.2⟩

theorem headDigit_cons (c : Char) (t : List Char) : headDigit (c :: t) = c.isDigit := rfl

theorem headDigit_of_digitRun {d X : List Char} (h0 : d ≠ [])
    (h1 : d.all Char.isDigit = true) : headDigit (d ++ X) = true := by
  cases d with
  | nil => exact absurd rfl h0
  | cons c t =>
    simp only [List.all_cons, Bool.and_eq_true] at h1
    simpa [headDigit] using h1.1

theorem headDigit_of_spaceRun {d X : List Char} (h0 : d ≠ [])
    (h1 : d.all isSpaceChar = true) : headDigit (d ++ X) = false := by
  cases d with
  | nil => exact absurd rfl h0
  | cons c t =>
    simp only [List.all_cons, Bool.and_eq_true] at h1
    simpa [headDigit] using space_not_digit h1.1

theorem headSpace_of_digitRun {d X : List Char} (h0 : d ≠ [])
    (h1 : d.all Char.isDigit = true) : headSpace (d ++ X) = false := by
  cases d with
  | nil => exact absurd rfl h0
  | cons c t =>
    simp only [List.all_cons, Bool.and_eq_true] at h1
    simpa [headSpace] using digit_not_space h1.1

theorem dayValue_digit {l : List Char} (h : l.all Char.isDigit = true) :
    dayValue l = lval l := by
  unfold dayValue
  split
  · rename_i c
    simp only [List.all_cons, List.all_nil, Bool.and_eq_true] at h
    exact absurd h.1 (by decide)
  · rfl

theorem parseDayField_digit {cs : List Char} (hc : headDigit cs = true) :
    parseDayField cs = parseNumField cs 1 2 1 31 := by
  cases cs with
  | nil => cases hc
  | cons c t =>
    have hd : c.isDigit = true := hc
    have hcs : c ≠ ' ' := by
      intro e
      rw [e] at hd
      exact absurd hd (by decide)
    unfold parseDayField
    split
    · rename_i he
      injection he with h1 _
      exact absurd h1 hcs
    · rfl

theorem parseDayField_space {c : Char} {rest : List Char}
    (h1 : c.isDigit = true) (h2 : c ≠ '0') :
    parseDayField (' ' :: c :: rest) = some (chVal c, rest) := by
  simp [parseDayField, h1, h2]

theorem parseDayField_append {d X : List Char} (hd : dayTok d)
    (hX : headDigit X = false) :
    parseDayField (d ++ X) = some (dayValue d, X) := by
  rcases hd with ⟨h1, h2, h3, h4, h5⟩ | ⟨c, rfl, hc1, hc2⟩
  · rw [parseDayField_digit (headDigit_of_digitRun h1 h2),
      parseNumField_append h2 hX (List.length_pos.mpr h1) h3 h4 h5,
      dayValue_digit h2]
  · show parseDayField (' ' :: c :: X) = _
    rw [parseDayField_space hc1 hc2]
    rfl

theorem parseDayField_inv {cs rest : List Char} {v : Nat}
    (h : parseDayField cs = some (v, rest)) :
    ∃ d, cs = d ++ rest ∧ dayTok d ∧ v = dayValue d := by
  unfold parseDayField at h
  split at h
  · rename_i c r2
    split at h
    · rename_i hcond
      rw [Option.some.injEq, Prod.mk.injEq] at h
      refine ⟨[' ', c], ?_, Or.inr ⟨c, rfl, ?_, hcond.2⟩, ?_⟩
      · rw [h.2]; rfl
      · exact hcond.1
      · rw [← h.1]; rfl
    · cases h
  · obtain ⟨run, hcs, hall, _, hminl, hmaxl, hv, hlo, hhi⟩ := parseNumField_inv h
    refine ⟨run, hcs, Or.inl ⟨?_, hall, hmaxl, ?_, ?_⟩, ?_⟩
    · intro e; rw [e] at hminl; cases hminl
    · rw [← hv]; exact hlo
    · rw [← hv]; exact hhi
    · rw [hv, dayValue_digit hall]

theorem ampm_first_not_space {ap : List Char} (h : ap ∈ ampmForms) :
    headSpace ap = false := by
  fin_cases h <;> decide

theorem parseAmPm_forms {ap : List Char} (h : ap ∈ ampmForms) :
    ∃ pm, parseAmPm ap = some (pm, []) := by
  fin_cases h <;> first
    | exact ⟨false, by decide⟩
    | exact ⟨true, by decide⟩

theorem parseAmPm_inv {cs rest : List Char} {pm : Bool}
    (h : parseAmPm cs = some (pm, rest)) :
    ∃ ap, ap ∈ ampmForms ∧ cs = ap ++ rest := by
  cases cs with
  | nil => cases h
  | cons a t =>
    cases t with
    | nil => cases h
    | cons m r =>
      have h' : (if (a = 'A' ∨ a = 'a') ∧ (m = 'M' ∨ m = 'm') then some ((false : Bool), r)
          else if (a = 'P' ∨ a = 'p') ∧ (m = 'M' ∨ m = 'm') then some ((true : Bool), r)
          else none) = some (pm, rest) := h
      split at h'
      · rename_i hcond
        rw [Option.some.injEq, Prod.mk.injEq] at h'
        refine ⟨[a, m], ?_, by simp only [List.cons_append, List.nil_append]; rw [h'.2]⟩
        obtain ⟨ha, hm⟩ := hcond
        rcases ha with rfl | rfl <;> rcases hm with rfl | rfl <;> simp [ampmForms]
      · split at h'
        · rename_i hcond
          rw [Option.some.injEq, Prod.mk.injEq] at h'
          refine ⟨[a, m], ?_, by simp only [List.cons_append, List.nil_append]; rw [h'.2]⟩
          obtain ⟨ha, hm⟩ := hcond
          rcases ha with rfl | rfl <;> rcases hm with rfl | rfl <;> simp [ampmForms]
        · exact Option.noConfusion h'

/-- Soundness of the scanner: a string matching the grammar parses, with
the expected field values. -/
theorem interpret_date_of_matches {s : String} (h : matchesDateFormat s) :
    ∃ dtv, interpret_date s = some dtv := by
  obtain ⟨moT, dT, yT, sp1, hT, miT, secT, sp2, ap, hdata, hmo, hd, hy, hsp1, hh,
    hmi, hsec, hsp2, hap, hcal⟩ := h
  obtain ⟨hmo1, hmo2, hmo3, hmo4, hmo5⟩ := hmo
  obtain ⟨hy1, hy2, hy3, hy4⟩ := hy
  obtain ⟨hh1, hh2, hh3, hh4, hh5⟩ := hh
  obtain ⟨hmi1, hmi2, hmi3, hmi4, hmi5⟩ := hmi
  obtain ⟨hsec1, hsec2, hsec3, hsec4, hsec5⟩ := hsec
  obtain ⟨pmv, hpm⟩ := parseAmPm_forms hap
  have e1 : parseNumField s.data 1 2 1 12 =
      some (lval moT, '/' :: (dT ++ ('/' :: (yT ++ (sp1 ++ (hT ++ (':' :: (miT ++
        (':' :: (secT ++ (sp2 ++ ap))))))))))) := by
    rw [hdata]
    exact parseNumField_append hmo2 (by rw [headDigit_cons]; decide)
      (List.length_pos.mpr hmo1) hmo3 hmo4 hmo5
  have e3 : parseDayField (dT ++ ('/' :: (yT ++ (sp1 ++ (hT ++ (':' :: (miT ++
        (':' :: (secT ++ (sp2 ++ ap)))))))))) =
      some (dayValue dT, '/' :: (yT ++ (sp1 ++ (hT ++ (':' :: (miT ++
        (':' :: (secT ++ (sp2 ++ ap))))))))) :=
    parseDayField_append hd (by rw [headDigit_cons]; decide)
  have e5 : parseNumField (yT ++ (sp1 ++ (hT ++ (':' :: (miT ++
        (':' :: (secT ++ (sp2 ++ ap)))))))) 4 4 1 9999 =
      some (lval yT, sp1 ++ (hT ++ (':' :: (miT ++ (':' :: (secT ++ (sp2 ++ ap))))))) :=
    parseNumField_append hy1 (headDigit_of_spaceRun hsp1.1 hsp1.2) hy2.ge hy2.le hy3 hy4
  have e6 : expectSpaces (sp1 ++ (hT ++ (':' :: (miT ++ (':' :: (secT ++ (sp2 ++ ap))))))) =
      some (hT ++ (':' :: (miT ++ (':' :: (secT ++ (sp2 ++ ap)))))) :=
    expectSpaces_append hsp1.1 hsp1.2 (headSpace_of_digitRun hh1 hh2)
  have e7 : parseNumField (hT ++ (':' :: (miT ++ (':' :: (secT ++ (sp2 ++ ap)))))) 1 2 1 12 =
      some (lval hT, ':' :: (miT ++ (':' :: (secT ++ (sp2 ++ ap))))) :=
    parseNumField_append hh2 (by rw [headDigit_cons]; decide) (List.length_pos.mpr hh1) hh3 hh4 hh5
  have e9 : parseNumField (miT ++ (':' :: (secT ++ (sp2 ++ ap)))) 1 2 0 59 =
      some (lval miT, ':' :: (secT ++ (sp2 ++ ap))) :=
    parseNumField_append hmi2 (by rw [headDigit_cons]; decide) (List.length_pos.mpr hmi1) hmi3
      (Nat.zero_le _) hmi5
  have e11 : parseNumField (secT ++ (sp2 ++ ap)) 1 2 0 59 =
      some (lval secT, sp2 ++ ap) :=
    parseNumField_append hsec2 (headDigit_of_spaceRun hsp2.1 hsp2.2)
      (List.length_pos.mpr hsec1) hsec3 (Nat.zero_le _) hsec5
  have e12 : expectSpaces (sp2 ++ ap) = some ap :=
    expectSpaces_append hsp2.1 hsp2.2 (ampm_first_not_space hap)
  refine ⟨⟨lval yT, lval moT, dayValue dT, to24Hour (lval hT) pmv, lval miT, lval secT⟩, ?_⟩
  simp only [interpret_date, Option.bind_eq_bind, e1, e3, e5, e6, e7, e9, e11, e12, hpm,
    expectChar_self, Option.some_bind]
  simp [hcal]

/-- Completeness of the scanner: a successfully parsed string matches the
grammar. -/
theorem matches_of_interpret_date {s : String} {dtv : DT}
    (h : interpret_date s = some dtv) : matchesDateFormat s := by
  simp only [interpret_date, Option.bind_eq_bind, Option.bind_eq_some] at h
  obtain ⟨⟨mo, r1⟩, h1, h⟩ := h
  obtain ⟨r2, h2, h⟩ := h
  obtain ⟨⟨d, r3⟩, h3, h⟩ := h
  obtain ⟨r4, h4, h⟩ := h
  obtain ⟨⟨y, r5⟩, h5, h⟩ := h
  obtain ⟨r6, h6, h⟩ := h
  obtain ⟨⟨hr, r7⟩, h7, h⟩ := h
  obtain ⟨r8, h8, h⟩ := h
  obtain ⟨⟨mi, r9⟩, h9, h⟩ := h
  obtain ⟨r10, h10, h⟩ := h
  obtain ⟨⟨sec, r11⟩, h11, h⟩ := h
  obtain ⟨r12, h12, h⟩ := h
  obtain ⟨⟨pm, r13⟩, h13, h⟩ := h
  dsimp only at h2 h4 h6 h8 h10 h12 h
  rw [ite_eq_iff] at h
  rcases h with ⟨⟨hr13, hcal⟩, _⟩ | ⟨_, hfalse⟩
  · subst hr13
    obtain ⟨moT, hscs, hmoall, _, hmominl, hmomaxl, hmov, hmolo, hmohi⟩ := parseNumField_inv h1
    have hr1 := expectChar_inv h2
    obtain ⟨dTk, hr2eq, hdtok, hdval⟩ := parseDayField_inv h3
    have hr3 := expectChar_inv h4
    obtain ⟨yT, hr4eq, hyall, _, hyminl, hymaxl, hyv, hylo, hyhi⟩ := parseNumField_inv h5
    obtain ⟨sp1, hr5eq, hsp1ne, hsp1all, _⟩ := expectSpaces_inv h6
    obtain ⟨hT, hr6eq, hhall, _, hhminl, hhmaxl, hhv, hhlo, hhhi⟩ := parseNumField_inv h7
    have hr7 := expectChar_inv h8
    obtain ⟨miT, hr8eq, hmiall, _, hmiminl, hmimaxl, hmiv, _, hmihi⟩ := parseNumField_inv h9
    have hr9 := expectChar_inv h10
    obtain ⟨secT, hr10eq, hsecall, _, hsecminl, hsecmaxl, hsecv, _, hsechi⟩ :=
      parseNumField_inv h11
    obtain ⟨sp2, hr11eq, hsp2ne, hsp2all, _⟩ := expectSpaces_inv h12
    obtain ⟨ap, hapmem, hr12eq⟩ := parseAmPm_inv h13
    refine ⟨moT, dTk, yT, sp1, hT, miT, secT, sp2, ap, ?_, ?_, hdtok, ?_, ⟨hsp1ne, hsp1all⟩,
      ?_, ?_, ?_, ⟨hsp2ne, hsp2all⟩, hapmem, ?_⟩
    · rw [hscs, hr1, hr2eq, hr3, hr4eq, hr5eq, hr6eq, hr7, hr8eq, hr9, hr10eq, hr11eq,
        hr12eq, List.append_nil]
    · have hne : moT ≠ [] := by intro e; rw [e] at hmominl; cases hmominl
      exact ⟨hne, hmoall, hmomaxl, by rw [← hmov]; exact hmolo, by rw [← hmov]; exact hmohi⟩
    · exact ⟨hyall, Nat.le_antisymm hymaxl hyminl, by rw [← hyv]; exact hylo,
        by rw [← hyv]; exact hyhi⟩
    · have hne : hT ≠ [] := by intro e; rw [e] at hhminl; cases hhminl
      exact ⟨hne, hhall, hhmaxl, by rw [← hhv]; exact hhlo, by rw [← hhv]; exact hhhi⟩
    · have hne : miT ≠ [] := by intro e; rw [e] at hmiminl; cases hmiminl
      exact ⟨hne, hmiall, hmimaxl, Nat.zero_le _, by rw [← hmiv]; exact hmihi⟩
    · have hne : secT ≠ [] := by intro e; rw [e] at hsecminl; cases hsecminl
      exact ⟨hne, hsecall, hsecmaxl, Nat.zero_le _, by rw [← hsecv]; exact hsechi⟩
    · rw [← hdval, ← hyv, ← hmov]; exact hcal
  · cases hfalse

/-- Constructing a `Monitor` from an object carrying only a start-date
string: the construction succeeds exactly when `interpret_date` does. -/
theorem parseMonitor_startDate (s : String) :
    parseMonitor (.obj [("MON_StartDate", .str s)]) =
      (interpret_date s).map (fun d =>
        ⟨none, none, none, none, none, none, none, none, none, none,
         none, none, none, none, none, none, none, none, some d, none⟩) := by
  cases hs : interpret_date s with
  | none => simp [parseMonitor, field, jlookup, parseDateVal, hs]
  | some d => simp [parseMonitor, field, jlookup, parseDateVal, hs]

/-- Same for an object carrying only an end-date string. -/
theorem parseMonitor_endDate (s : String) :
    parseMonitor (.obj [("MON_EndDate", .str s)]) =
      (interpret_date s).map (fun d =>
        ⟨none, none, none, none, none, none, none, none, none, none,
         none, none, none, none, none, none, none, none, none, some d⟩) := by
  cases hs : interpret_date s with
  | none => simp [parseMonitor, field, jlookup, parseDateVal, hs]
  | some d => simp [parseMonitor, field, jlookup, parseDateVal, hs]

/-- C4: a `Monitor` whose start-date or end-date string matches the format
`MM/DD/YYYY hh:mm:ss AM|PM` (as the source defines matching, i.e. `strptime`
acceptance of `"%m/%d/%Y %I:%M:%S %p"`) constructs successfully with a
present timestamp; the sentinel `"12/31/9999 11:59:59 PM"` is an ordinary
successful parse, not a failure; and a non-matching date string fails the
construction of the record — no default date is substituted. -/
theorem monitor_date_format_construction (s : String) :
    (matchesDateFormat s →
      ∃ m, parseMonitor (.obj [("MON_StartDate", .str s)]) = some m ∧
        m.mon_start_date.isSome = true) ∧
    (matchesDateFormat s →
      ∃ m, parseMonitor (.obj [("MON_EndDate", .str s)]) = some m ∧
        m.mon_end_date.isSome = true) ∧
    (∃ m, parseMonitor (.obj [("MON_StartDate", .str "12/31/9999 11:59:59 PM")]) = some m ∧
      m.mon_start_date = some ⟨9999, 12, 31, 23, 59, 59⟩) ∧
    (¬ matchesDateFormat s → parseMonitor (.obj [("MON_StartDate", .str s)]) = none) ∧
    (¬ matchesDateFormat s → parseMonitor (.obj [("MON_EndDate", .str s)]) = none) := by
  refine ⟨?_, ?_, ?_, ?_, ?_⟩
  · intro hm
    obtain ⟨d, hd⟩ := interpret_date_of_matches hm
    rw [parseMonitor_startDate, hd]
    exact ⟨_, rfl, rfl⟩
  · intro hm
    obtain ⟨d, hd⟩ := interpret_date_of_matches hm
    rw [parseMonitor_endDate, hd]
    exact ⟨_, rfl, rfl⟩
  · rw [parseMonitor_startDate,
      show interpret_date "12/31/9999 11:59:59 PM" = some ⟨9999, 12, 31, 23, 59, 59⟩
        from by decide]
    exact ⟨_, rfl, rfl⟩
  · intro hm
    rw [parseMonitor_startDate]
    cases hs : interpret_date s with
    | none => rfl
    | some d => exact absurd (matches_of_interpret_date hs) hm
  · intro hm
    rw [parseMonitor_endDate]
    cases hs : interpret_date s with
    | none => rfl
    | some d => exact absurd (matches_of_interpret_date hs) hm

/-- A concrete instantiation of `monitor_date_format_construction`: the
sentinel matches the format and constructs with a present timestamp, and the
malformed string `"tomorrow"` does not match and fails construction. -/
theorem monitor_date_format_construction_witness :
    (∃ m, parseMonitor (.obj [("MON_StartDate", .str "12/31/9999 11:59:59 PM")]) = some m ∧
      m.mon_start_date.isSome = true) ∧
    parseMonitor (.obj [("MON_StartDate", .str "tomorrow")]) = none := by
  have hsent : matchesDateFormat "12/31/9999 11:59:59 PM" :=
    ⟨['1','2'], ['3','1'], ['9','9','9','9'], [' '], ['1','1'], ['5','9'], ['5','9'],
      [' '], ['P','M'], by decide, by decide, Or.inl (by decide), by decide, by decide,
      by decide, by decide, by decide, by decide, by decide, by decide⟩
  have hbad : ¬ matchesDateFormat "tomorrow" := by
    intro hm
    obtain ⟨d, hd⟩ := interpret_date_of_matches hm
    rw [show interpret_date "tomorrow" = none from by decide] at hd
    cases hd
  exact ⟨(monitor_date_format_construction "12/31/9999 11:59:59 PM").1 hsent,
    (monitor_date_format_construction "tomorrow").2.2.2.1 hbad⟩

/-! # Proof support: the round-trip law -/

theorem optInt_rt {v : Json} (h : OptIntShape v) :
    ∃ o, parseOptInt v = some o ∧ serOptInt o = v := by
  rcases h with rfl | ⟨n, rfl⟩
  · exact ⟨none, rfl, rfl⟩
  · exact ⟨some n, rfl, rfl⟩

theorem optStr_rt {v : Json} (h : OptStrShape v) :
    ∃ o, parseOptStr v = some o ∧ serOptStr o = v := by
  rcases h with rfl | ⟨s, rfl⟩
  · exact ⟨none, rfl, rfl⟩
  · exact ⟨some s, rfl, rfl⟩

theorem optBool_rt {v : Json} (h : OptBoolShape v) :
    ∃ o, parseOptBool v = some o ∧ serOptBool o = v := by
  rcases h with rfl | ⟨b, rfl⟩
  · exact ⟨none, rfl, rfl⟩
  · exact ⟨some b, rfl, rfl⟩

theorem optNum_rt {v : Json} (h : OptNumShape v) :
    ∃ o, parseOptNum v = some o ∧ serOptNum o = v := by
  rcases h with rfl | ⟨q, rfl⟩
  · exact ⟨none, rfl, rfl⟩
  · exact ⟨some q, rfl, rfl⟩

theorem height_rt {v : Json} (h : HeightShape v) :
    ∃ o, parseOptInt v = some o ∧ serOptInt o = normHeightVal v := by
  rcases h with rfl | ⟨n, rfl⟩ | ⟨s, n, rfl, hs⟩
  · exact ⟨none, rfl, rfl⟩
  · exact ⟨some n, rfl, rfl⟩
  · refine ⟨some n, ?_, ?_⟩
    · simp [parseOptInt, parseIntVal, hs]
    · simp [normHeightVal, hs, serOptInt]

theorem date_rt {v : Json} (h : DateShape v) :
    ∃ d, parseDateVal v = some (some d) ∧ serOptDate (some d) = normDateVal v := by
  obtain ⟨s, d, rfl, hd⟩ := h
  refine ⟨d, ?_, ?_⟩
  · simp [parseDateVal, hd]
  · simp [normDateVal, hd, serOptDate]

theorem mapM_parseIntVal_map_int (ns : List Int) :
    (ns.map Json.int).mapM parseIntVal = some ns := by
  induction ns with
  | nil => rfl
  | cons n t ih =>
    simp only [List.map_cons, List.mapM_cons, ih, parseIntVal]
    rfl

theorem intList_rt {v : Json} (h : IntListShape v) :
    ∃ o, parseOptIntList v = some o ∧ serOptIntList o = v := by
  rcases h with rfl | ⟨ns, rfl⟩
  · exact ⟨none, rfl, rfl⟩
  · exact ⟨some ns,
      by simp only [parseOptIntList, mapM_parseIntVal_map_int, Option.map_some'], rfl⟩

theorem location_rt {v : Json} (h : LocationShape v) :
    ∃ o, parseOptLocation v = some o ∧ serOptLocation o = v := by
  rcases h with rfl | ⟨la, lo, rfl, hla, hlo⟩
  · exact ⟨none, rfl, rfl⟩
  · obtain ⟨oa, hpa, hsa⟩ := optNum_rt hla
    obtain ⟨ob, hpb, hsb⟩ := optNum_rt hlo
    refine ⟨some ⟨oa, ob⟩, ?_, ?_⟩
    · simp [parseOptLocation, parseLocation, field, jlookup, hpa, hpb]
    · simp [serOptLocation, serLocation, hsa, hsb]

theorem monitor_rt {j : Json} (h : MonitorShape j) :
    ∃ m, parseMonitor j = some m ∧ serMonitor m = normMonitorJson j := by
  obtain ⟨v1, v2, v3, v4, v5, v6, v7, v8, v9, v10, v11, v12, v13, v14, v15, v16, v17,
    v18, v19, v20, rfl, h1, h2, h3, h4, h5, h6, h7, h8, h9, h10, h11, h12, h13, h14,
    h15, h16, h17, h18, h19, h20⟩ := h
  obtain ⟨o1, hp1, hs1⟩ := optInt_rt h1
  obtain ⟨o2, hp2, hs2⟩ := optStr_rt h2
  obtain ⟨o3, hp3, hs3⟩ := optStr_rt h3
  obtain ⟨o4, hp4, hs4⟩ := optStr_rt h4
  obtain ⟨o5, hp5, hs5⟩ := optBool_rt h5
  obtain ⟨o6, hp6, hs6⟩ := optInt_rt h6
  obtain ⟨o7, hp7, hs7⟩ := optInt_rt h7
  obtain ⟨o8, hp8, hs8⟩ := optStr_rt h8
  obtain ⟨o9, hp9, hs9⟩ := optInt_rt h9
  obtain ⟨o10, hp10, hs10⟩ := optBool_rt h10
  obtain ⟨o11, hp11, hs11⟩ := optBool_rt h11
  obtain ⟨o12, hp12, hs12⟩ := optInt_rt h12
  obtain ⟨o13, hp13, hs13⟩ := optStr_rt h13
  obtain ⟨o14, hp14, hs14⟩ := optInt_rt h14
  obtain ⟨o15, hp15, hs15⟩ := optInt_rt h15
  obtain ⟨o16, hp16, hs16⟩ := optInt_rt h16
  obtain ⟨o17, hp17, hs17⟩ := optInt_rt h17
  obtain ⟨o18, hp18, hs18⟩ := optStr_rt h18
  obtain ⟨o19, hp19, hs19⟩ := date_rt h19
  obtain ⟨o20, hp20, hs20⟩ := date_rt h20
  refine ⟨⟨o1, o2, o3, o4, o5, o6, o7, o8, o9, o10, o11, o12, o13, o14, o15, o16,
    o17, o18, some o19, some o20⟩, ?_, ?_⟩
  · simp [parseMonitor, field, jlookup, hp1, hp2, hp3, hp4, hp5, hp6, hp7, hp8, hp9,
      hp10, hp11, hp12, hp13, hp14, hp15, hp16, hp17, hp18, hp19, hp20]
  · simp [serMonitor, normMonitorJson, hs1, hs2, hs3, hs4, hs5, hs6, hs7, hs8, hs9,
      hs10, hs11, hs12, hs13, hs14, hs15, hs16, hs17, hs18, hs19, hs20]

theorem monitors_rt {v : Json} (h : MonitorsShape v) :
    ∃ o, parseOptMonitors v = some o ∧ serOptMonitors o = normMonitorsVal v := by
  rcases h with rfl | ⟨xs, rfl, hxs⟩
  · exact ⟨none, rfl, rfl⟩
  · suffices hs : ∃ ms, xs.mapM parseMonitor = some ms ∧
        ms.map serMonitor = xs.map normMonitorJson by
      obtain ⟨ms, hp, hmap⟩ := hs
      exact ⟨some ms, by simp only [parseOptMonitors, hp, Option.map_some'],
        by simp [serOptMonitors, normMonitorsVal, hmap]⟩
    induction xs with
    | nil => exact ⟨[], rfl, rfl⟩
    | cons x t ih =>
      obtain ⟨m, hpm, hsm⟩ := monitor_rt (hxs x (by simp))
      obtain ⟨ms, hp, hmap⟩ := ih (fun y hy => hxs y (by simp [hy]))
      exact ⟨m :: ms, by simp only [List.mapM_cons, hpm, hp]; rfl, by simp [hsm, hmap]⟩

theorem station_rt {j : Json} (h : StationShape j) :
    ∃ st, parseStation j = some st ∧ serStation st = normStationJson j := by
  obtain ⟨v1, v2, v3, v4, v5, v6, v7, v8, v9, v10, v11, v12, v13, v14, v15, v16, v17,
    v18, v19, v20, v21, v22, v23, v24, rfl, h1, h2, h3, h4, h5, h6, h7, h8, h9, h10,
    h11, h12, h13, h14, h15, h16, h17, h18, h19, h20, h21, h22, h23, h24⟩ := h
  obtain ⟨n1, rfl⟩ := h1
  obtain ⟨o2, hp2, hs2⟩ := optStr_rt h2
  obtain ⟨o3, hp3, hs3⟩ := height_rt h3
  obtain ⟨o4, hp4, hs4⟩ := optStr_rt h4
  obtain ⟨o5, hp5, hs5⟩ := optStr_rt h5
  obtain ⟨o6, hp6, hs6⟩ := location_rt h6
  obtain ⟨o7, hp7, hs7⟩ := optInt_rt h7
  obtain ⟨o8, hp8, hs8⟩ := optBool_rt h8
  obtain ⟨o9, hp9, hs9⟩ := optStr_rt h9
  obtain ⟨o10, hp10, hs10⟩ := optInt_rt h10
  obtain ⟨o11, hp11, hs11⟩ := optInt_rt h11
  obtain ⟨o12, hp12, hs12⟩ := monitors_rt h12
  obtain ⟨o13, hp13, hs13⟩ := optStr_rt h13
  obtain ⟨o14, hp14, hs14⟩ := optInt_rt h14
  obtain ⟨o15, hp15, hs15⟩ := optStr_rt h15
  obtain ⟨o16, hp16, hs16⟩ := optStr_rt h16
  obtain ⟨o17, hp17, hs17⟩ := optStr_rt h17
  obtain ⟨o18, hp18, hs18⟩ := intList_rt h18
  obtain ⟨o19, hp19, hs19⟩ := optStr_rt h19
  obtain ⟨o20, hp20, hs20⟩ := optStr_rt h20
  obtain ⟨o21, hp21, hs21⟩ := optBool_rt h21
  obtain ⟨o22, hp22, hs22⟩ := optBool_rt h22
  obtain ⟨o23, hp23, hs23⟩ := optBool_rt h23
  obtain ⟨o24, hp24, hs24⟩ := optStr_rt h24
  refine ⟨⟨some n1, o2, o3, o4, o5, o6, o7, o8, o9, o10, o11, o12, o13, o14, o15, o16,
    o17, o18, o19, o20, o21, o22, o23, o24⟩, ?_, ?_⟩
  · simp [parseStation, parseStationIdField, field, jlookup, parseIntVal, hp2, hp3, hp4,
      hp5, hp6, hp7, hp8, hp9, hp10, hp11, hp12, hp13, hp14, hp15, hp16, hp17, hp18,
      hp19, hp20, hp21, hp22, hp23, hp24]
  · have hs1 : serOptInt (some n1) = Json.int n1 := rfl
    simp [serStation, normStationJson, hs1, hs2, hs3, hs4, hs5, hs6, hs7, hs8,
      hs9, hs10, hs11, hs12, hs13, hs14, hs15, hs16, hs17, hs18, hs19, hs20, hs21,
      hs22, hs23, hs24]

theorem stations_rt {ss : List Json} (h : ∀ x ∈ ss, StationShape x) :
    ∃ sts, ss.mapM parseStation = some sts ∧
      sts.map serStation = ss.map normStationJson := by
  induction ss with
  | nil => exact ⟨[], rfl, rfl⟩
  | cons x t ih =>
    obtain ⟨st, hpst, hsst⟩ := station_rt (h x (by simp))
    obtain ⟨sts, hp, hmap⟩ := ih (fun y hy => h y (by simp [hy]))
    exact ⟨st :: sts, by simp only [List.mapM_cons, hpst, hp]; rfl, by simp [hsst, hmap]⟩

/-- C1: for a region JSON object shaped like the upstream catalog response
(`UpstreamRegionShape`), constructing the `Region` (with its `Station`s and
`Monitor`s) succeeds, and re-serializing it to the upstream key convention
(`serRegion`, modelling `model_dump_json(by_alias=True)`) reproduces the
original object field-for-field except exactly the documented
normalizations (`normRegionJson`): `MON_StartDate`/`MON_EndDate` strings
reformatted from `MM/DD/YYYY hh:mm:ss AM|PM` to ISO, and a numeric-string
`height` coerced to the equal integer. -/
theorem region_parse_serialize_roundtrip (j : Json) (h : UpstreamRegionShape j) :
    ∃ r, parseRegion j = some r ∧ serRegion r = normRegionJson j := by
  obtain ⟨vR, vN, ss, rfl, hR, hN, hss⟩ := h
  obtain ⟨oR, hpR, hsR⟩ := optInt_rt hR
  obtain ⟨oN, hpN, hsN⟩ := optStr_rt hN
  obtain ⟨sts, hp, hmap⟩ := stations_rt hss
  refine ⟨⟨oR, oN, sts⟩, ?_, ?_⟩
  · have hp' : List.mapM.loop parseStation ss [] = some sts := hp
    simp [parseRegion, field, jlookup, hpR, hpN, hp, hp']
  · simp [serRegion, normRegionJson, hsR, hsN, hmap]

/-- The sample monitor payload is upstream-shaped. -/
theorem sampleMonitorJson_shape : MonitorShape sampleMonitorJson :=
  ⟨_, _, _, _, _, _, _, _, _, _, _, _, _, _, _, _, _, _, _, _, rfl,
    Or.inr ⟨3, rfl⟩, Or.inr ⟨_, rfl⟩, Or.inl rfl, Or.inl rfl, Or.inr ⟨_, rfl⟩,
    Or.inr ⟨28, rfl⟩, Or.inr ⟨27, rfl⟩, Or.inr ⟨_, rfl⟩, Or.inr ⟨14, rfl⟩,
    Or.inr ⟨_, rfl⟩, Or.inr ⟨_, rfl⟩, Or.inl rfl, Or.inr ⟨_, rfl⟩, Or.inl rfl,
    Or.inl rfl, Or.inr ⟨0, rfl⟩, Or.inl rfl, Or.inr ⟨_, rfl⟩,
    ⟨"06/01/1970 12:00:00 AM", ⟨1970, 6, 1, 0, 0, 0⟩, rfl, by decide⟩,
    ⟨"12/31/9999 11:59:59 PM", ⟨9999, 12, 31, 23, 59, 59⟩, rfl, by decide⟩⟩

/-- The sample station payload is upstream-shaped. -/
theorem sampleStationJson_shape : StationShape sampleStationJson := by
  refine ⟨_, _, _, _, _, _, _, _, _, _, _, _, _, _, _, _, _, _, _, _, _, _, _, _, rfl,
    ⟨2, rfl⟩, Or.inr ⟨_, rfl⟩, Or.inr (Or.inr ⟨"70", 70, rfl, by decide⟩),
    Or.inr ⟨_, rfl⟩, Or.inr ⟨_, rfl⟩,
    Or.inr ⟨_, _, rfl, Or.inr ⟨_, rfl⟩, Or.inl rfl⟩,
    Or.inr ⟨60, rfl⟩, Or.inr ⟨_, rfl⟩, Or.inl rfl, Or.inr ⟨0, rfl⟩, Or.inr ⟨1, rfl⟩,
    Or.inr ⟨[sampleMonitorJson], rfl, ?_⟩, Or.inl rfl, Or.inl rfl, Or.inr ⟨_, rfl⟩,
    Or.inl rfl, Or.inl rfl, Or.inr ⟨[60, 1440], rfl⟩, Or.inl rfl, Or.inr ⟨_, rfl⟩,
    Or.inr ⟨_, rfl⟩, Or.inr ⟨_, rfl⟩, Or.inr ⟨_, rfl⟩, Or.inr ⟨_, rfl⟩⟩
  intro y hy
  rw [List.mem_singleton] at hy
  subst hy
  exact sampleMonitorJson_shape

/-- The sample region payload is upstream-shaped. -/
theorem sampleRegionJson_shape : UpstreamRegionShape sampleRegionJson := by
  refine ⟨.int 1, .str "Portland Metro", [sampleStationJson], rfl,
    Or.inr ⟨1, rfl⟩, Or.inr ⟨_, rfl⟩, ?_⟩
  intro x hx
  rw [List.mem_singleton] at hx
  subst hx
  exact sampleStationJson_shape

/-- Concrete instantiation of `region_parse_serialize_roundtrip` at
`sampleRegionJson`. -/
theorem region_parse_serialize_roundtrip_witness :
    UpstreamRegionShape sampleRegionJson ∧
    ∃ r, parseRegion sampleRegionJson = some r ∧
      serRegion r = normRegionJson sampleRegionJson :=
  ⟨sampleRegionJson_shape,
    region_parse_serialize_roundtrip sampleRegionJson sampleRegionJson_shape⟩

/-! # Proof support: the catalog filter -/

theorem truthyInt_spec {o : Option Int} (h : truthyInt o = true) :
    o ≠ none ∧ o ≠ some 0 := by
  cases o with
  | none => cases h
  | some n =>
    simp only [truthyInt, decide_eq_true_eq] at h
    exact ⟨by simp, by simp [h]⟩

theorem truthyStr_spec {o : Option String} (h : truthyStr o = true) :
    o ≠ none ∧ o ≠ some "" := by
  cases o with
  | none => cases h
  | some s =>
    simp only [truthyStr, decide_eq_true_eq] at h
    exact ⟨by simp, by simp [h]⟩

/-- `get_station_data` is parse-all-then-filter (an exception while parsing
any region aborts the whole call, so interleaving parse and filter is
equivalent to parsing everything first). -/
theorem get_station_data_eq (body : List Json) :
    get_station_data body = (parseRegions body).map
      (fun rs => rs.filter (fun r => truthyInt r.region_id && truthyStr r.name)) := by
  induction body with
  | nil => rfl
  | cons j t ih =>
    cases hj : parseRegion j with
    | none => simp [get_station_data, parseRegions, hj]
    | some r =>
      cases ht : parseRegions t with
      | none => simp [get_station_data, parseRegions, hj, ht, ih]
      | some rs =>
        simp only [get_station_data, parseRegions, hj, ht, ih, List.filter_cons,
          Option.map_some']

/-- C2: whenever `get_station_data` succeeds, its result contains no region
with an absent or zero id and none with an absent or empty name, and it is
exactly the subsequence (in order) of the parsed regions passing the
validity filter — so placeholder records are silently dropped. -/
theorem get_station_data_filters_placeholders (body : List Json) :
    ∀ regions, get_station_data body = some regions →
      (∀ r ∈ regions, r.region_id ≠ none ∧ r.region_id ≠ some 0 ∧
        r.name ≠ none ∧ r.name ≠ some "") ∧
      ∃ rs, parseRegions body = some rs ∧
        regions = rs.filter (fun r => truthyInt r.region_id && truthyStr r.name) := by
  intro regions h
  rw [get_station_data_eq] at h
  rw [Option.map_eq_some'] at h
  obtain ⟨rs, hrs, hfil⟩ := h
  refine ⟨?_, rs, hrs, hfil.symm⟩
  intro r hr
  rw [← hfil] at hr
  have hc := List.of_mem_filter hr
  rw [Bool.and_eq_true] at hc
  obtain ⟨h1, h2⟩ := truthyInt_spec hc.1
  obtain ⟨h3, h4⟩ := truthyStr_spec hc.2
  exact ⟨h1, h2, h3, h4⟩

/-- Concrete instantiation of `get_station_data_filters_placeholders`: on the
captured 5-valid + 2-placeholder catalog it returns exactly the five valid
regions, in order, and every returned region passes the invariant. -/
theorem get_station_data_filters_placeholders_witness :
    get_station_data sampleCatalogJson =
      some [⟨some 1, some "Portland Metro", []⟩,
        ⟨some 2, some "Willamette Valley", []⟩,
        ⟨some 3, some "Southern Oregon", []⟩,
        ⟨some 4, some "Central Oregon", []⟩,
        ⟨some 5, some "Eastern Oregon", []⟩] ∧
    ∀ r ∈ [(⟨some 1, some "Portland Metro", []⟩ : Region),
        ⟨some 2, some "Willamette Valley", []⟩,
        ⟨some 3, some "Southern Oregon", []⟩,
        ⟨some 4, some "Central Oregon", []⟩,
        ⟨some 5, some "Eastern Oregon", []⟩],
      r.region_id ≠ none ∧ r.region_id ≠ some 0 ∧ r.name ≠ none ∧ r.name ≠ some "" :=
  ⟨by decide,
    (get_station_data_filters_placeholders sampleCatalogJson _ (by decide)).1⟩

/-! # Absent/null field behaviour (C5, C6, C9) -/

/-- C5 counterexample: constructing a `Region` from an object with the
`stations` field absent does not succeed with an absent value — it fails,
because `stations: List[Station]` has no default.  This refutes "for every
model type and every field, construction from an object in which that field
is absent succeeds". -/
theorem parseRegion_absent_stations_fails : parseRegion (.obj []) = none := rfl

/-- C5 amended: absent and null fields map to explicit absent values for the
`Optional` fields of every model, with these exceptions forced by the code:
`Region.stations` is required (absent or null fails construction);
`Monitor`'s two date fields and `Station.stationId` tolerate absence but
fail construction on an explicit null (the date validator runs on any
supplied value, and `stationId`'s `int` annotation rejects `None`); and
`StationDatum.channels` substitutes the empty-list default when absent and
fails on null. -/
theorem absent_and_null_field_handling :
    -- absent fields: empty object per model
    parseLocation [] = some ⟨none, none⟩ ∧
    parseMonitor (.obj []) = some ⟨none, none, none, none, none, none, none, none,
      none, none, none, none, none, none, none, none, none, none, none, none⟩ ∧
    parseStation (.obj []) = some ⟨none, none, none, none, none, none, none, none,
      none, none, none, none, none, none, none, none, none, none, none, none, none,
      none, none, none⟩ ∧
    parseChannel (.obj []) = some ⟨none, none, none, none, none, none, none⟩ ∧
    parseStationDatum (.obj []) = some ⟨none, []⟩ ∧
    parseRegion (.obj []) = none ∧
    -- null tolerated for plain Optional fields
    parseLocation [("latitude", .null), ("longitude", .null)] = some ⟨none, none⟩ ∧
    parseMonitor (.obj [("channelId", .null), ("name", .null), ("alias", .null),
      ("description", .null), ("active", .null), ("typeId", .null),
      ("pollutantId", .null), ("units", .null), ("unitID", .null),
      ("mapView", .null), ("isIndex", .null), ("PollutantCategory", .null),
      ("NumericFormat", .null), ("LowRange", .null), ("HighRange", .null),
      ("state", .null), ("PctValid", .null), ("MonitorTitle", .null)]) =
      some ⟨none, none, none, none, none, none, none, none, none, none, none, none,
        none, none, none, none, none, none, none, none⟩ ∧
    parseStation (.obj [("stationsTag", .null), ("height", .null), ("name", .null),
      ("shortName", .null), ("location", .null), ("timebase", .null),
      ("active", .null), ("owner", .null), ("ownerId", .null), ("regionId", .null),
      ("monitors", .null), ("StationTarget", .null), ("TargetId", .null),
      ("County", .null), ("city", .null), ("address", .null), ("timeBases", .null),
      ("additionalTimebases", .null), ("isNonContinuous", .null), ("mapView", .null),
      ("aqiView", .null), ("mobile", .null), ("AQSCODE", .null)]) =
      some ⟨none, none, none, none, none, none, none, none, none, none, none, none,
        none, none, none, none, none, none, none, none, none, none, none, none⟩ ∧
    parseChannel (.obj [("value_date", .null), ("status", .null), ("value", .null),
      ("valid", .null), ("id", .null), ("units", .null), ("name", .null)]) =
      some ⟨none, none, none, none, none, none, none⟩ ∧
    parseStationDatum (.obj [("datetime", .null)]) = some ⟨none, []⟩ ∧
    parseRegion (.obj [("regionId", .null), ("name", .null), ("stations", .arr [])]) =
      some ⟨none, none, []⟩ ∧
    -- the exceptional nulls fail construction
    parseMonitor (.obj [("MON_StartDate", .null)]) = none ∧
    parseMonitor (.obj [("MON_EndDate", .null)]) = none ∧
    parseStation (.obj [("stationId", .null)]) = none ∧
    parseStationDatum (.obj [("channels", .null)]) = none ∧
    parseRegion (.obj [("regionId", .int 1), ("name", .str "x"), ("stations", .null)]) =
      none :=
  ⟨rfl, rfl, rfl, rfl, rfl, rfl, rfl, rfl, rfl, rfl, rfl, rfl, rfl, rfl, rfl, rfl, rfl⟩

/-- C9 counterexample: constructing a `Station` from an object lacking the
`stationId` key succeeds and yields an absent id (the unvalidated `None`
default), refuting "the resulting station_id is present (never absent)". -/
theorem parseStation_absent_id_counterexample :
    (parseStation (.obj [])).map Station.station_id = some none := rfl

/-- C9 amended: `stationId`, when supplied, must coerce to `int` — an
explicit null fails construction — but the key may be absent entirely, in
which case construction succeeds with an absent id (which consumers such as
`get_station_names` guard against). -/
theorem station_id_handling (n : Int) :
    (parseStation (.obj [])).map Station.station_id = some none ∧
    parseStation (.obj [("stationId", .null)]) = none ∧
    (parseStation (.obj [("stationId", .int n)])).map Station.station_id =
      some (some n) := by
  refine ⟨rfl, rfl, ?_⟩
  simp [parseStation, parseStationIdField, field, jlookup, parseIntVal]

/-- Concrete instantiation of `station_id_handling` at `stationId = 7`. -/
theorem station_id_handling_witness :
    (parseStation (.obj [("stationId", .int 7)])).map Station.station_id =
      some (some 7) :=
  (station_id_handling 7).2.2

/-- C6 counterexample: a region object missing the `regionId` and `name`
keys entirely does not make `get_station_data` raise a parse failure — the
call succeeds (and the region is merely dropped by the validity filter). -/
theorem get_station_data_missing_regionId_no_failure :
    get_station_data [.obj [("stations", .arr [])]] = some [] := rfl

/-- C6 amended: `get_station_data` raises a parse failure exactly for the
`stations` key — when it is missing entirely or null — while `regionId` and
`name` are tolerated both missing and null (such regions simply fail the
validity filter); and schema violations are never retried: the transport
attempt count of the composed fetch equals that of the retry loop alone,
whatever the body parses to. -/
theorem get_station_data_schema_failures {E : Type} (vR vN : Json)
    (hR : OptIntShape vR) (hN : OptStrShape vN) :
    parseRegion (.obj [("regionId", vR), ("name", vN)]) = none ∧
    parseRegion (.obj [("regionId", vR), ("name", vN), ("stations", .null)]) = none ∧
    parseRegion (.obj [("stations", .arr [])]) = some ⟨none, none, []⟩ ∧
    parseRegion (.obj [("regionId", .null), ("name", .null), ("stations", .arr [])]) =
      some ⟨none, none, []⟩ ∧
    ∀ transport : Nat → Except E Json,
      (fetchStationCatalog transport).2 = (retryCall transport).2.1 := by
  obtain ⟨oR, hpR, _⟩ := optInt_rt hR
  obtain ⟨oN, hpN, _⟩ := optStr_rt hN
  refine ⟨?_, ?_, rfl, rfl, ?_⟩
  · simp [parseRegion, field, jlookup, hpR, hpN]
  · simp [parseRegion, field, jlookup, hpR, hpN]
  · intro transport
    unfold fetchStationCatalog
    rcases hres : (retryCall transport).1 with e | body
    · simp [hres]
    · cases body <;> simp [hres]

/-- Concrete instantiation of `get_station_data_schema_failures`. -/
theorem get_station_data_schema_failures_witness :
    parseRegion (.obj [("regionId", .int 1), ("name", .str "North")]) = none ∧
    parseRegion (.obj [("regionId", .int 1), ("name", .str "North"),
      ("stations", .null)]) = none ∧
    (fetchStationCatalog (fun _ => (.ok (.obj []) : Except Unit Json))).2 =
      (retryCall (fun _ => (.ok (.obj []) : Except Unit Json))).2.1 := by
  have h := get_station_data_schema_failures (E := Unit) (.int 1) (.str "North")
    (Or.inr ⟨1, rfl⟩) (Or.inr ⟨"North", rfl⟩)
  exact ⟨h.1, h.2.1, h.2.2.2.2 _⟩

/-! # Proof support: the station-name map (C7) -/

theorem lookup_cons' {k a : Int} {b : String} {es : List (Int × String)} :
    ((k, b) :: es).lookup a = if a = k then some b else es.lookup a := by
  rw [List.lookup_cons]
  by_cases h : a = k
  · subst h; simp
  · rw [if_neg h, beq_eq_false_iff_ne.mpr h]

theorem lookup_map_update_ne {d : List (Int × String)} {k k' : Int} {v : String}
    (h : ¬ k' = k) :
    List.lookup k' (d.map (fun p => if p.1 = k then (k, v) else p)) =
      List.lookup k' d := by
  induction d with
  | nil => rfl
  | cons p t ih =>
    obtain ⟨k1, v1⟩ := p
    by_cases h1 : k1 = k
    · subst h1
      have hmap : ((k1, v1) :: t).map (fun p => if p.1 = k1 then (k1, v) else p) =
          (k1, v) :: t.map (fun p => if p.1 = k1 then (k1, v) else p) := by
        rw [List.map_cons]
        congr 1
        exact if_pos rfl
      rw [hmap, lookup_cons', lookup_cons', if_neg h, if_neg h, ih]
    · have hmap : ((k1, v1) :: t).map (fun p => if p.1 = k then (k, v) else p) =
          (k1, v1) :: t.map (fun p => if p.1 = k then (k, v) else p) := by
        rw [List.map_cons]
        congr 1
        exact if_neg h1
      rw [hmap, lookup_cons', lookup_cons', ih]

theorem lookup_map_update (k k' : Int) (v : String) :
    ∀ d : List (Int × String), d.any (fun p => decide (p.1 = k)) = true →
    List.lookup k' (d.map (fun p => if p.1 = k then (k, v) else p)) =
      if k' = k then some v else List.lookup k' d := by
  intro d
  induction d with
  | nil => intro h; cases h
  | cons q t ih =>
    intro hany
    obtain ⟨k1, v1⟩ := q
    simp only [List.any_cons, Bool.or_eq_true, decide_eq_true_eq] at hany
    by_cases h1 : k1 = k
    · subst h1
      have hmap : ((k1, v1) :: t).map (fun p => if p.1 = k1 then (k1, v) else p) =
          (k1, v) :: t.map (fun p => if p.1 = k1 then (k1, v) else p) := by
        rw [List.map_cons]
        congr 1
        exact if_pos rfl
      rw [hmap]
      by_cases h2 : k' = k1
      · rw [lookup_cons', if_pos h2, if_pos h2]
      · rw [lookup_cons', if_neg h2, if_neg h2, lookup_cons', if_neg h2,
          lookup_map_update_ne h2]
    · rcases hany with h | hany
      · exact absurd h h1
      · have hmap : ((k1, v1) :: t).map (fun p => if p.1 = k then (k, v) else p) =
            (k1, v1) :: t.map (fun p => if p.1 = k then (k, v) else p) := by
          rw [List.map_cons]
          congr 1
          exact if_neg h1
        rw [hmap]
        by_cases h2 : k' = k1
        · rw [lookup_cons', if_pos h2, if_neg (fun e => h1 (h2.symm.trans e)),
            lookup_cons', if_pos h2]
        · rw [lookup_cons', if_neg h2, ih hany]
          by_cases h3 : k' = k
          · rw [if_pos h3, if_pos h3]
          · rw [if_neg h3, if_neg h3, lookup_cons', if_neg h2]

theorem lookup_dictInsert (d : List (Int × String)) (k k' : Int) (v : String) :
    List.lookup k' (dictInsert d k v) =
      if k' = k then some v else List.lookup k' d := by
  unfold dictInsert
  split
  · rename_i hany
    exact lookup_map_update k k' v d hany
  · rename_i hany
    rw [List.lookup_append]
    by_cases h2 : k' = k
    · subst h2
      have hdn : List.lookup k' d = none := by
        rw [List.lookup_eq_none_iff]
        intro p hp
        rw [bne_iff_ne]
        intro e
        rw [Bool.not_eq_true] at hany
        rw [List.any_eq_false] at hany
        exact absurd (by simpa using e.symm) (by simpa using hany p hp)
      rw [hdn, if_pos rfl]
      simp
    · rw [if_neg h2]
      have hone : List.lookup k' [(k, v)] = none := by
        rw [lookup_cons', if_neg h2]
        rfl
      rw [hone]
      cases List.lookup k' d <;> rfl

theorem get_station_names_eq_foldl (regions : List Region) :
    get_station_names regions = (regions.flatMap Region.stations).foldl nameStep [] := by
  rfl

theorem lookup_foldl_nameStep (k : Int) :
    ∀ (sts : List Station) (d : List (Int × String)),
      List.lookup k (sts.foldl nameStep d) =
        match sts.reverse.find?
          (fun st => st.station_id == some k && st.name.isSome) with
        | some st => st.name
        | none => List.lookup k d := by
  intro sts
  induction sts with
  | nil => intro d; rfl
  | cons st t ih =>
    intro d
    simp only [List.foldl_cons, List.reverse_cons, List.find?_append, ih]
    cases hf : t.reverse.find? (fun st => st.station_id == some k && st.name.isSome) with
    | some st' => simp [Option.or]
    | none =>
      simp only [Option.or, List.find?_singleton]
      by_cases hz : (st.station_id == some k && st.name.isSome) = true
      · rw [if_pos hz]
        rw [Bool.and_eq_true, beq_iff_eq, Option.isSome_iff_exists] at hz
        obtain ⟨hid, nm, hnm⟩ := hz
        simp [nameStep, hid, hnm, lookup_dictInsert]
      · rw [if_neg hz]
        rw [Bool.and_eq_true] at hz
        unfold nameStep
        cases hid : st.station_id with
        | none => rfl
        | some k1 =>
          cases hnm : st.name with
          | none => rfl
          | some v =>
            have hk1 : ¬ k = k1 := by
              intro e
              exact hz ⟨by simp [hid, e], by simp [hnm]⟩
            rw [lookup_dictInsert, if_neg hk1]

/-- C7: for every catalog result and station id `k`, the name map's entry at
`k` is the name of the last station (flattened across all regions, in
order) whose id is `k` and whose id and name are both present; in
particular the key set is exactly the ids of such stations (absent-id or
absent-name stations are skipped, and the last occurrence wins when an id
recurs across regions). -/
theorem get_station_names_derivation (regions : List Region) (k : Int) :
    (List.lookup k (get_station_names regions) =
      ((regions.flatMap Region.stations).reverse.find?
        (fun st => st.station_id == some k && st.name.isSome)).bind Station.name) ∧
    ((List.lookup k (get_station_names regions)).isSome ↔
      ∃ st, st ∈ regions.flatMap Region.stations ∧
        st.station_id = some k ∧ st.name ≠ none) := by
  have hmain : List.lookup k (get_station_names regions) =
      ((regions.flatMap Region.stations).reverse.find?
        (fun st => st.station_id == some k && st.name.isSome)).bind Station.name := by
    rw [get_station_names_eq_foldl, lookup_foldl_nameStep]
    cases hf : (regions.flatMap Region.stations).reverse.find?
        (fun st => st.station_id == some k && st.name.isSome) with
    | none => rfl
    | some st =>
      cases hnm : st.name with
      | none =>
        have := List.find?_some hf
        rw [Bool.and_eq_true] at this
        rw [hnm] at this
        cases this.2
      | some v => simp [hnm]
  refine ⟨hmain, ?_⟩
  rw [hmain]
  constructor
  · intro hs
    rw [Option.isSome_iff_exists] at hs
    obtain ⟨v, hv⟩ := hs
    rw [Option.bind_eq_some] at hv
    obtain ⟨st, hst, hnm⟩ := hv
    have hmem := List.mem_of_find?_eq_some hst
    have hpred := List.find?_some hst
    rw [Bool.and_eq_true, beq_iff_eq] at hpred
    rw [List.mem_reverse] at hmem
    exact ⟨st, hmem, hpred.1, by rw [hnm]; simp⟩
  · intro ⟨st, hmem, hid, hnm⟩
    have : ∃ x, x ∈ (regions.flatMap Region.stations).reverse ∧
        (x.station_id == some k && x.name.isSome) = true := by
      refine ⟨st, by simpa [List.mem_reverse] using hmem, ?_⟩
      rw [Bool.and_eq_true, beq_iff_eq]
      exact ⟨hid, by cases h : st.name with
        | none => exact absurd h hnm
        | some v => rfl⟩
    rw [← List.find?_isSome] at this
    rw [Option.isSome_iff_exists] at this
    obtain ⟨st', hst'⟩ := this
    rw [hst']
    have hpred := List.find?_some hst'
    rw [Bool.and_eq_true] at hpred
    obtain ⟨v', hv'⟩ := Option.isSome_iff_exists.mp hpred.2
    simp [hv']

/-- Concrete instantiation of `get_station_names_derivation` on
`sampleNameRegions`: the duplicated id 1 maps to the later "New Name", the
nameless station 3 and the id-less station contribute no keys, and id 2
keeps its name. -/
theorem get_station_names_derivation_witness :
    List.lookup 1 (get_station_names sampleNameRegions) = some "New Name" ∧
    List.lookup 2 (get_station_names sampleNameRegions) =
      some "Portland SE Lafayette" ∧
    List.lookup 3 (get_station_names sampleNameRegions) = none := by
  refine ⟨?_, ?_, ?_⟩
  · rw [(get_station_names_derivation sampleNameRegions 1).1]; decide
  · rw [(get_station_names_derivation sampleNameRegions 2).1]; decide
  · rw [(get_station_names_derivation sampleNameRegions 3).1]; decide

/-! # The data request (C8, C10) -/

/-- C10: in every request built by `get_data`, the `filterChannels`
query parameter equals the empty string when the channels argument is
`None` or the empty list, and equals the decimal representations of the
channel ids joined by commas, in the given order, when non-empty. -/
theorem get_data_filterChannels (sid : Int) (ft tt : DT) (res : Int) (agg : String)
    (pv : Int) (body : Json) :
    (List.lookup "filterChannels"
        (get_data sid ft tt none res agg pv body).1.2 = some (.str "")) ∧
    (List.lookup "filterChannels"
        (get_data sid ft tt (some []) res agg pv body).1.2 = some (.str "")) ∧
    (∀ (c : Int) (cs : List Int),
      List.lookup "filterChannels"
          (get_data sid ft tt (some (c :: cs)) res agg pv body).1.2 =
        some (.str (String.intercalate "," ((c :: cs).map toString)))) :=
  ⟨rfl, rfl, fun _ _ => rfl⟩

/-- Concrete instantiation of `get_data_filterChannels`: ids `[40, -2, 0]`
are joined to `"40,-2,0"`, and `None` gives the empty string. -/
theorem get_data_filterChannels_witness :
    List.lookup "filterChannels"
        (get_data 2 ⟨2024, 1, 1, 0, 0, 0⟩ ⟨2024, 1, 2, 0, 0, 0⟩ (some [40, -2, 0])
          60 "Average" 75 .null).1.2 = some (.str "40,-2,0") ∧
    List.lookup "filterChannels"
        (get_data 2 ⟨2024, 1, 1, 0, 0, 0⟩ ⟨2024, 1, 2, 0, 0, 0⟩ none
          60 "Average" 75 .null).1.2 = some (.str "") := by
  constructor
  · rw [(get_data_filterChannels 2 ⟨2024, 1, 1, 0, 0, 0⟩ ⟨2024, 1, 2, 0, 0, 0⟩
      60 "Average" 75 .null).2.2 40 [-2, 0]]
    rfl
  · exact (get_data_filterChannels 2 ⟨2024, 1, 1, 0, 0, 0⟩ ⟨2024, 1, 2, 0, 0, 0⟩
      60 "Average" 75 .null).1

theorem mapM_option_length {α β : Type} (f : α → Option β) :
    ∀ xs : List α, (∀ x ∈ xs, (f x).isSome = true) →
    ∃ ys, xs.mapM f = some ys ∧ ys.length = xs.length := by
  intro xs
  induction xs with
  | nil => exact fun _ => ⟨[], rfl, rfl⟩
  | cons x t ih =>
    intro h
    obtain ⟨y, hy⟩ := Option.isSome_iff_exists.mp (h x (by simp))
    obtain ⟨ys, hys, hlen⟩ := ih (fun z hz => h z (by simp [hz]))
    exact ⟨y :: ys, by simp only [List.mapM_cons, hy, hys]; rfl, by simp [hlen]⟩

/-- C8: every `get_data` call targets the per-station endpoint path built
from the station id and aggregation method, sends `from`/`to` as the two
timestamps in `YYYY-MM-DDTHH:MM:SS` format, sends `fromTimebase` and
`toTimebase` both equal to the resolution, sends the percent-valid value
under the upstream's misspelled key `precentValid`, and parses a
well-formed `{data: [...]}` body into a `MonitorData` with one
`StationDatum` per element of the body's array. -/
theorem get_data_request_spec (sid : Int) (ft tt : DT) (channels : Option (List Int))
    (res : Int) (agg : String) (pv : Int) (xs : List Json)
    (hxs : ∀ x ∈ xs, (parseStationDatum x).isSome = true) :
    (get_data sid ft tt channels res agg pv (.obj [("data", .arr xs)])).1.1 =
      DATA_URL ++ "/" ++ toString sid ++ "/" ++ agg ∧
    List.lookup "from"
        (get_data sid ft tt channels res agg pv (.obj [("data", .arr xs)])).1.2 =
      some (.str (isoFormat ft)) ∧
    List.lookup "to"
        (get_data sid ft tt channels res agg pv (.obj [("data", .arr xs)])).1.2 =
      some (.str (isoFormat tt)) ∧
    List.lookup "fromTimebase"
        (get_data sid ft tt channels res agg pv (.obj [("data", .arr xs)])).1.2 =
      some (.int res) ∧
    List.lookup "toTimebase"
        (get_data sid ft tt channels res agg pv (.obj [("data", .arr xs)])).1.2 =
      some (.int res) ∧
    List.lookup "precentValid"
        (get_data sid ft tt channels res agg pv (.obj [("data", .arr xs)])).1.2 =
      some (.int pv) ∧
    ∃ md, (get_data sid ft tt channels res agg pv (.obj [("data", .arr xs)])).2 =
      some md ∧ md.data.length = xs.length := by
  refine ⟨rfl, rfl, rfl, rfl, rfl, rfl, ?_⟩
  obtain ⟨ys, hys, hlen⟩ := mapM_option_length parseStationDatum xs hxs
  refine ⟨⟨ys⟩, ?_, hlen⟩
  show parseMonitorData (.obj [("data", .arr xs)]) = some ⟨ys⟩
  have hys' : List.mapM.loop parseStationDatum xs [] = some ys := hys
  simp [parseMonitorData, jlookup, hys, hys']

/-- Concrete instantiation of `get_data_request_spec` at the documented
example query (2024-01-01 to 2024-01-02, resolution 1440, one sample). -/
theorem get_data_request_spec_witness :
    List.lookup "from"
        (get_data 2 ⟨2024, 1, 1, 0, 0, 0⟩ ⟨2024, 1, 2, 0, 0, 0⟩ none 1440 "Average" 75
          (.obj [("data", .arr [.obj []])])).1.2 = some (.str "2024-01-01T00:00:00") ∧
    List.lookup "fromTimebase"
        (get_data 2 ⟨2024, 1, 1, 0, 0, 0⟩ ⟨2024, 1, 2, 0, 0, 0⟩ none 1440 "Average" 75
          (.obj [("data", .arr [.obj []])])).1.2 = some (.int 1440) ∧
    List.lookup "toTimebase"
        (get_data 2 ⟨2024, 1, 1, 0, 0, 0⟩ ⟨2024, 1, 2, 0, 0, 0⟩ none 1440 "Average" 75
          (.obj [("data", .arr [.obj []])])).1.2 = some (.int 1440) ∧
    ∃ md, (get_data 2 ⟨2024, 1, 1, 0, 0, 0⟩ ⟨2024, 1, 2, 0, 0, 0⟩ none 1440 "Average" 75
      (.obj [("data", .arr [.obj []])])).2 = some md ∧ md.data.length = 1 := by
  have h := get_data_request_spec 2 ⟨2024, 1, 1, 0, 0, 0⟩ ⟨2024, 1, 2, 0, 0, 0⟩ none
    1440 "Average" 75 [.obj []] (by decide)
  refine ⟨?_, h.2.2.2.1, h.2.2.2.2.1, ?_⟩
  · rw [h.2.1]
    rfl
  · obtain ⟨md, hmd, hlen⟩ := h.2.2.2.2.2.2
    exact ⟨md, hmd, by simpa using hlen⟩

/-! # The transport retry budget (C3) -/

theorem retryRun_success {E A : Type} (f : Nat → Except E A) (r : A) :
    ∀ (n i k : Nat), n ≤ k → (∀ m, m < n → ∃ e, f (i + m) = .error e) →
    f (i + n) = .ok r →
    retryRun f i k = (.ok r, n + 1, List.replicate n 10) := by
  intro n
  induction n with
  | zero =>
    intro i k _ _ hok
    rw [Nat.add_zero] at hok
    cases k with
    | zero => simp [retryRun, hok]
    | succ k' => simp [retryRun, hok]
  | succ n ih =>
    intro i k hk hfail hok
    cases k with
    | zero => exact absurd hk (by omega)
    | succ k' =>
      obtain ⟨e, he⟩ := hfail 0 (by omega)
      rw [Nat.add_zero] at he
      have hrec := ih (i + 1) k' (by omega)
        (fun m hm => by
          obtain ⟨e2, he2⟩ := hfail (m + 1) (by omega)
          exact ⟨e2, by rw [show i + 1 + m = i + (m + 1) from by omega]; exact he2⟩)
        (by rw [show i + 1 + n = i + (n + 1) from by omega]; exact hok)
      simp only [retryRun, he, hrec]
      simp [List.replicate_succ]

theorem retryRun_all_fail {E A : Type} (f : Nat → Except E A) (e : E) :
    ∀ (k i : Nat), (∀ m, m < k → ∃ e2, f (i + m) = .error e2) → f (i + k) = .error e →
    retryRun f i k = (.error e, k + 1, List.replicate k 10) := by
  intro k
  induction k with
  | zero =>
    intro i _ hlast
    rw [Nat.add_zero] at hlast
    simp [retryRun, hlast]
  | succ k ih =>
    intro i hfail hlast
    obtain ⟨e0, he0⟩ := hfail 0 (by omega)
    rw [Nat.add_zero] at he0
    have hrec := ih (i + 1)
      (fun m hm => by
        obtain ⟨e2, he2⟩ := hfail (m + 1) (by omega)
        exact ⟨e2, by rw [show i + 1 + m = i + (m + 1) from by omega]; exact he2⟩)
      (by rw [show i + 1 + k = i + (k + 1) from by omega]; exact hlast)
    simp only [retryRun, he0, hrec]
    simp [List.replicate_succ]

/-- C3: for `1 ≤ N ≤ 10`, if the wrapped HTTP call fails on the first `N-1`
attempts and succeeds on the `N`th, the retried transport returns the
successful response after exactly `N` attempts, sleeping the fixed 10-second
delay between consecutive attempts; if all 10 attempts fail it stops after
exactly 10 attempts and re-raises the final underlying failure unchanged. -/
theorem transport_retry_budget {E A : Type} (f : Nat → Except E A) (N : Nat)
    (h1 : 1 ≤ N) (h2 : N ≤ 10) :
    (∀ r, (∀ m, m + 1 < N → ∃ e, f m = .error e) → f (N - 1) = .ok r →
      retryCall f = (.ok r, N, List.replicate (N - 1) 10)) ∧
    (∀ e, (∀ m, m < 9 → ∃ e2, f m = .error e2) → f 9 = .error e →
      retryCall f = (.error e, 10, List.replicate 9 10)) := by
  constructor
  · intro r hfail hok
    have h := retryRun_success f r (N - 1) 0 9 (by omega)
      (fun m hm => by simpa using hfail m (by omega))
      (by simpa using hok)
    rw [show N - 1 + 1 = N from by omega] at h
    exact h
  · intro e hfail hlast
    have h := retryRun_all_fail f e 9 0
      (fun m hm => by simpa using hfail m (by omega))
      (by simpa using hlast)
    exact h

/-- Concrete instantiation of `transport_retry_budget`: two failures then a
success returns the success after 3 attempts with two 10-second waits, and
ten straight failures raise the tenth error after 10 attempts. -/
theorem transport_retry_budget_witness :
    retryCall (fun i => if i < 2 then (.error (100 + i) : Except Nat Nat) else .ok 42) =
      (.ok 42, 3, [10, 10]) ∧
    retryCall (fun i => (.error i : Except Nat Nat)) =
      (.error 9, 10, List.replicate 9 10) := by
  constructor
  · have h := (transport_retry_budget
      (fun i => if i < 2 then (.error (100 + i) : Except Nat Nat) else .ok 42) 3
      (by omega) (by omega)).1 42
      (fun m hm => ⟨100 + m, by
        have hlt : m < 2 := by omega
        rw [if_pos hlt]⟩)
      rfl
    simpa using h
  · exact (transport_retry_budget (fun i => (.error i : Except Nat Nat)) 10
      (by omega) (by omega)).2 9 (fun m _ => ⟨m, rfl⟩) rfl

end DeqTools
